import Mathlib

/-!
# gofr-account-rbac: account service

A shallow embedding of the account service of `gofr-account-rbac`
(`internal/model`, `internal/service`, `internal/repository`, `internal/handler`,
`pkg/hashutil`, and the in-memory store of `test/user_test.go`), followed by
theorems about it.

Conventions of the embedding.

* A Go `string` is a Lean `String` (a sequence of Unicode code points, so always valid
  UTF-8); Go's `len(s)` is the UTF-8 byte count `String.utf8ByteSize`.
* A Go `(*T, error)` result is an `Except GoError T`; a Go `error` result is an
  `Option GoError` (`none` is `nil`).
* A Go `int` is an `Int` in the 64-bit range (a 64-bit platform); `++` wraps around
  (`wrapInt64`).
* The store is passed explicitly: every operation of `UserRepositoryInterface` takes the
  store state and returns the new one, reads included, so that an implementation may
  observe every call made to it.
* What the Go standard library and `x/crypto/bcrypt` compute outside the ASCII range,
  from randomness or from the clock is not part of the repository; it is taken as a
  parameter (`GoLibs`, the `rand` argument, the clock readings of the in-memory store).
* `context.Context` arguments carry no behaviour in this code and are left out.
-/

/-! ## Go runtime and standard library -/

/-- Go `error` values, by dynamic type. `wrapError` is the `*fmt.wrapError` built by
`fmt.Errorf` with a `%w` verb; `errorString` stands for any error type of a library. -/
inductive GoError where
  | ValidationError (Message : String)
  | ServiceError (Message : String)
  | RepositoryError (Message : String)
  | HashError (Message : String)
  | wrapError (msg : String) (err : GoError)
  | errorString (s : String)
deriving DecidableEq

/-- The `Error()` method of each error type. -/
def GoError.Error : GoError → String
  | .ValidationError m => m
  | .ServiceError m => m
  | .RepositoryError m => m
  | .HashError m => m
  | .wrapError msg _ => msg
  | .errorString s => s

namespace fmt

/-- The call `fmt.Errorf(format, err)` for a format `"<text>: %w"`: the message is the
text followed by `err.Error()`, and the result wraps `err`. -/
def Errorf (text : String) (err : GoError) : GoError :=
  .wrapError (text ++ err.Error) err

end fmt

/-- Go's builtin `len` on a string: the number of bytes of its UTF-8 encoding. -/
def len (s : String) : Nat := s.utf8ByteSize

/-- Two's-complement wrap-around of a 64-bit Go `int`. -/
def wrapInt64 (x : Int) : Int := (x + 2 ^ 63) % 2 ^ 64 - 2 ^ 63

/-- The parts of the Go libraries the service calls whose behaviour is not fixed by the
repository. -/
structure GoLibs where
  /-- `unicode.To(unicode.LowerCase, r)` for a rune `r` above `unicode.MaxASCII`. -/
  toLowerCase : Char → Char
  /-- `bcrypt.GenerateFromPassword(password, cost)`; `rand` is what the call reads from
  the random source for its salt. -/
  GenerateFromPassword :
    (rand : Nat) → (password : String) → (cost : Nat) → Except GoError String
  /-- `bcrypt.CompareHashAndPassword(hashedPassword, password)`. -/
  CompareHashAndPassword : (hashedPassword : String) → (password : String) → Option GoError

namespace unicode

/-- `unicode.IsSpace`: the Latin-1 space characters and the code points of the Unicode
`White_Space` property. -/
def IsSpace (r : Char) : Bool :=
  let n := r.toNat
  (0x09 ≤ n && n ≤ 0x0D) || n == 0x20 || n == 0x85 || n == 0xA0 || n == 0x1680 ||
  (0x2000 ≤ n && n ≤ 0x200A) || n == 0x2028 || n == 0x2029 || n == 0x202F ||
  n == 0x205F || n == 0x3000

/-- `unicode.ToLower`: ASCII letters are shifted by `'a' - 'A'`, other ASCII runes are
returned unchanged, and runes above `MaxASCII` go through the case tables. -/
def ToLower (L : GoLibs) (r : Char) : Char :=
  if r.toNat ≤ 0x7F then
    if 'A'.toNat ≤ r.toNat ∧ r.toNat ≤ 'Z'.toNat then
      Char.ofNat (r.toNat + ('a'.toNat - 'A'.toNat))
    else r
  else L.toLowerCase r

end unicode

namespace strings

/-- `strings.ToLower`: every rune mapped by `unicode.ToLower`. -/
def ToLower (L : GoLibs) (s : String) : String :=
  ⟨s.data.map (unicode.ToLower L)⟩

/-- `strings.TrimSpace`: all leading and trailing white space removed. -/
def TrimSpace (s : String) : String :=
  ⟨(s.data.dropWhile unicode.IsSpace).rdropWhile unicode.IsSpace⟩

end strings

/-- A Go `map`, as the list of its entries. `GoMap.assign` keeps one entry per key; the
order of the list stands for the (unspecified) order in which `range` visits the map. -/
abbrev GoMap (κ ν : Type) := List (κ × ν)

/-- The read `m[k]` with its presence flag. -/
def GoMap.lookup {κ ν : Type} [DecidableEq κ] (m : GoMap κ ν) (k : κ) : Option ν :=
  (m.find? (fun p => decide (p.1 = k))).map (fun p => p.2)

/-- The assignment `m[k] = v`. -/
def GoMap.assign {κ ν : Type} [DecidableEq κ] (m : GoMap κ ν) (k : κ) (v : ν) : GoMap κ ν :=
  (k, v) :: m.filter (fun p => decide (p.1 ≠ k))

/-- A `time.Time` value. -/
abbrev Time := Nat

/-! ## internal/model -/

namespace model

/-- The `User` struct. -/
structure User where
  ID : Int
  Username : String
  Email : String
  PasswordHash : String
  CreatedAt : Time
  UpdatedAt : Time
deriving DecidableEq

/-- The `UserCreateRequest` struct. -/
structure UserCreateRequest where
  Username : String
  Email : String
  Password : String
deriving DecidableEq

/-- The `UserResponse` struct. -/
structure UserResponse where
  ID : Int
  Username : String
  Email : String
  CreatedAt : Time
  UpdatedAt : Time
deriving DecidableEq

/-- `User.ToResponse`. -/
def User.ToResponse (u : User) : UserResponse :=
  { ID := u.ID, Username := u.Username, Email := u.Email,
    CreatedAt := u.CreatedAt, UpdatedAt := u.UpdatedAt }

/-- `NewValidationError`. -/
def NewValidationError (message : String) : GoError := .ValidationError message

/-- `UserCreateRequest.Validate`; `none` is the `nil` error. -/
def UserCreateRequest.Validate (r : UserCreateRequest) : Option GoError :=
  if r.Username = "" then
    some (NewValidationError "username is required")
  else if len r.Username < 3 ∨ len r.Username > 50 then
    some (NewValidationError "username must be between 3 and 50 characters")
  else if r.Email = "" then
    some (NewValidationError "email is required")
  else if r.Password = "" then
    some (NewValidationError "password is required")
  else if len r.Password < 6 then
    some (NewValidationError "password must be at least 6 characters")
  else
    none

end model

/-! ## pkg/hashutil -/

namespace hashutil

/-- `DefaultCost = bcrypt.DefaultCost`. -/
def DefaultCost : Nat := 10

/-- `NewHashError`. -/
def NewHashError (message : String) : GoError := .HashError message

/-- `HashPassword`: the pair `(hash, err)` it returns. -/
def HashPassword (L : GoLibs) (rand : Nat) (password : String) : String × Option GoError :=
  if password = "" then
    ("", some (NewHashError "password cannot be empty"))
  else
    match L.GenerateFromPassword rand password DefaultCost with
    | .error err => ("", some (NewHashError ("failed to hash password: " ++ err.Error)))
    | .ok bytes => (bytes, none)

/-- `CheckPasswordHash`. -/
def CheckPasswordHash (L : GoLibs) (password hash : String) : Bool :=
  if password = "" ∨ hash = "" then
    false
  else
    (L.CompareHashAndPassword hash password).isNone

end hashutil

/-! ## internal/repository -/

namespace repository

/-- `NewRepositoryError`. -/
def NewRepositoryError (message : String) : GoError := .RepositoryError message

/-- `UserRepositoryInterface`, over a store with states in `σ`. `CreateUser` returns its
error, the `*user` it was given as the call leaves it, and the new state. -/
structure UserRepositoryInterface (σ : Type) where
  CreateUser : σ → model.User → Option GoError × model.User × σ
  GetUserByUsername : σ → String → Except GoError model.User × σ
  GetUserByEmail : σ → String → Except GoError model.User × σ
  GetUserByID : σ → Int → Except GoError model.User × σ
  CheckUserExists : σ → String → String → Except GoError Bool × σ

end repository

/-! ## internal/service -/

namespace service

/-- `NewServiceError`. -/
def NewServiceError (message : String) : GoError := .ServiceError message

/-- The `UserService` struct. -/
structure UserService (σ : Type) where
  Repo : repository.UserRepositoryInterface σ

/-- `NewUserService`. -/
def NewUserService {σ : Type} (repo : repository.UserRepositoryInterface σ) : UserService σ :=
  { Repo := repo }

/-- `UserService.Register`, run on the store state `st`. (The method also overwrites
`req.Username` and `req.Email` with their normalized values; no caller reads them
afterwards.) -/
def UserService.Register {σ : Type} (L : GoLibs) (s : UserService σ) (st : σ) (rand : Nat)
    (req : model.UserCreateRequest) : Except GoError model.User × σ :=
  match req.Validate with
  | some err => (.error err, st)
  | none =>
    let username := strings.TrimSpace (strings.ToLower L req.Username)
    let email := strings.TrimSpace (strings.ToLower L req.Email)
    match s.Repo.CheckUserExists st username email with
    | (.error err, st1) => (.error (fmt.Errorf "failed to check user existence: " err), st1)
    | (.ok true, st1) =>
      (.error (NewServiceError "user with this username or email already exists"), st1)
    | (.ok false, st1) =>
      match hashutil.HashPassword L rand req.Password with
      | (_, some err) => (.error (fmt.Errorf "failed to hash password: " err), st1)
      | (hashedPassword, none) =>
        let user : model.User :=
          { ID := 0, Username := username, Email := email, PasswordHash := hashedPassword,
            CreatedAt := 0, UpdatedAt := 0 }
        match s.Repo.CreateUser st1 user with
        | (some err, _, st2) => (.error (fmt.Errorf "failed to create user: " err), st2)
        | (none, user1, st2) => (.ok user1, st2)

/-- `UserService.GetByUsername`. -/
def UserService.GetByUsername {σ : Type} (L : GoLibs) (s : UserService σ) (st : σ)
    (username : String) : Except GoError model.User × σ :=
  if username = "" then
    (.error (NewServiceError "username is required"), st)
  else
    let username := strings.TrimSpace (strings.ToLower L username)
    match s.Repo.GetUserByUsername st username with
    | (.error err, st1) => (.error err, st1)
    | (.ok user, st1) => (.ok user, st1)

/-- `UserService.GetByEmail`. -/
def UserService.GetByEmail {σ : Type} (L : GoLibs) (s : UserService σ) (st : σ)
    (email : String) : Except GoError model.User × σ :=
  if email = "" then
    (.error (NewServiceError "email is required"), st)
  else
    let email := strings.TrimSpace (strings.ToLower L email)
    match s.Repo.GetUserByEmail st email with
    | (.error err, st1) => (.error err, st1)
    | (.ok user, st1) => (.ok user, st1)

/-- `UserService.GetByID`. -/
def UserService.GetByID {σ : Type} (s : UserService σ) (st : σ) (id : Int) :
    Except GoError model.User × σ :=
  if id ≤ 0 then
    (.error (NewServiceError "invalid user ID"), st)
  else
    match s.Repo.GetUserByID st id with
    | (.error err, st1) => (.error err, st1)
    | (.ok user, st1) => (.ok user, st1)

/-- `UserService.ValidateCredentials`. -/
def UserService.ValidateCredentials {σ : Type} (L : GoLibs) (s : UserService σ) (st : σ)
    (username password : String) : Except GoError model.User × σ :=
  if username = "" ∨ password = "" then
    (.error (NewServiceError "username and password are required"), st)
  else
    match s.GetByUsername L st username with
    | (.error _, st1) => (.error (NewServiceError "invalid credentials"), st1)
    | (.ok user, st1) =>
      if ¬ hashutil.CheckPasswordHash L password user.PasswordHash then
        (.error (NewServiceError "invalid credentials"), st1)
      else
        (.ok user, st1)

end service

/-! ## internal/handler -/

namespace handler

/-- What a handler writes as the body of its response. -/
inductive Body where
  /-- The plain text of `http.Error`. -/
  | text (message : String)
  /-- The JSON object with the single key `error`, written by `respondWithError`. -/
  | error (message : String)
  /-- The JSON encoding of a `UserResponse`. -/
  | user (u : model.UserResponse)
deriving DecidableEq

/-- The status code and body written to the `http.ResponseWriter`. -/
structure Response where
  Code : Nat
  Body : Body
deriving DecidableEq

/-- `http.StatusCreated`. -/
def StatusCreated : Nat := 201
/-- `http.StatusBadRequest`. -/
def StatusBadRequest : Nat := 400
/-- `http.StatusMethodNotAllowed`. -/
def StatusMethodNotAllowed : Nat := 405
/-- `http.StatusConflict`. -/
def StatusConflict : Nat := 409
/-- `http.StatusInternalServerError`. -/
def StatusInternalServerError : Nat := 500

/-- `respondWithError`. -/
def respondWithError (statusCode : Nat) (message : String) : Response :=
  { Code := statusCode, Body := .error message }

/-- The `UserHandler` struct. -/
structure UserHandler (σ : Type) where
  Service : service.UserService σ

/-- `NewUserHandler`. -/
def NewUserHandler {σ : Type} (svc : service.UserService σ) : UserHandler σ :=
  { Service := svc }

/-- `UserHandler.RegisterUser`. The request is given by its method and by what
`json.NewDecoder(r.Body).Decode(&req)` makes of its body. The type assertions
`err.(*model.ValidationError)` and `err.(*service.ServiceError)` look at the dynamic type
of `err` itself, not at what it wraps. -/
def UserHandler.RegisterUser {σ : Type} (L : GoLibs) (h : UserHandler σ) (st : σ) (rand : Nat)
    (Method : String) (decoded : Except GoError model.UserCreateRequest) : Response × σ :=
  if Method ≠ "POST" then
    ({ Code := StatusMethodNotAllowed, Body := .text "Method not allowed" }, st)
  else
    match decoded with
    | .error _ => (respondWithError StatusBadRequest "Invalid request body", st)
    | .ok req =>
      match h.Service.Register L st rand req with
      | (.error err, st1) =>
        match err with
        | .ValidationError _ => (respondWithError StatusBadRequest err.Error, st1)
        | .ServiceError _ => (respondWithError StatusConflict err.Error, st1)
        | _ => (respondWithError StatusInternalServerError "Failed to create user", st1)
      | (.ok user, st1) => ({ Code := StatusCreated, Body := .user user.ToResponse }, st1)

end handler

/-! ## test: the in-memory store -/

namespace test

/-- The `MockUserRepository` struct. -/
structure MockUserRepository where
  users : GoMap String model.User
  usersByID : GoMap Int model.User
  idCounter : Int
deriving DecidableEq

/-- `NewMockUserRepository`. -/
def NewMockUserRepository : MockUserRepository :=
  { users := [], usersByID := [], idCounter := 0 }

/-- `MockUserRepository.CreateUser`; `now1` and `now2` are its two readings of
`time.Now()`. -/
def MockUserRepository.CreateUser (now1 now2 : Time) (m : MockUserRepository)
    (user : model.User) : Option GoError × model.User × MockUserRepository :=
  if (m.users.lookup user.Username).isSome then
    (some (.RepositoryError "user already exists"), user, m)
  else if m.users.any (fun p => decide (p.2.Email = user.Email)) then
    (some (.RepositoryError "email already exists"), user, m)
  else
    let idCounter := wrapInt64 (m.idCounter + 1)
    let user1 : model.User :=
      { user with ID := idCounter, CreatedAt := now1, UpdatedAt := now2 }
    (none, user1,
      { users := m.users.assign user1.Username user1,
        usersByID := m.usersByID.assign user1.ID user1,
        idCounter := idCounter })

/-- `MockUserRepository.GetUserByUsername`. -/
def MockUserRepository.GetUserByUsername (m : MockUserRepository) (username : String) :
    Except GoError model.User × MockUserRepository :=
  match m.users.lookup username with
  | some user => (.ok user, m)
  | none => (.error (.RepositoryError "user not found"), m)

/-- `MockUserRepository.GetUserByEmail`. -/
def MockUserRepository.GetUserByEmail (m : MockUserRepository) (email : String) :
    Except GoError model.User × MockUserRepository :=
  match m.users.find? (fun p => decide (p.2.Email = email)) with
  | some p => (.ok p.2, m)
  | none => (.error (.RepositoryError "user not found"), m)

/-- `MockUserRepository.GetUserByID`. -/
def MockUserRepository.GetUserByID (m : MockUserRepository) (id : Int) :
    Except GoError model.User × MockUserRepository :=
  match m.usersByID.lookup id with
  | some user => (.ok user, m)
  | none => (.error (.RepositoryError "user not found"), m)

/-- `MockUserRepository.CheckUserExists`. -/
def MockUserRepository.CheckUserExists (m : MockUserRepository) (username email : String) :
    Except GoError Bool × MockUserRepository :=
  if (m.users.lookup username).isSome then
    (.ok true, m)
  else if m.users.any (fun p => decide (p.2.Email = email)) then
    (.ok true, m)
  else
    (.ok false, m)

/-- The mock as a `repository.UserRepositoryInterface`, for the clock readings `now1`,
`now2` of its next `CreateUser`. -/
def MockUserRepository.asRepo (now1 now2 : Time) :
    repository.UserRepositoryInterface MockUserRepository :=
  { CreateUser := MockUserRepository.CreateUser now1 now2
    GetUserByUsername := MockUserRepository.GetUserByUsername
    GetUserByEmail := MockUserRepository.GetUserByEmail
    GetUserByID := MockUserRepository.GetUserByID
    CheckUserExists := MockUserRepository.CheckUserExists }

/-- The accounts the store holds. -/
def MockUserRepository.accounts (m : MockUserRepository) : List model.User :=
  m.users.map (fun p => p.2)

/-- One `Register` call against the mock: its request, the randomness its hashing reads
and the clock readings of the store. -/
structure RegisterCall where
  req : model.UserCreateRequest
  rand : Nat
  now1 : Time
  now2 : Time
deriving DecidableEq

/-- One `userService.Register(ctx, req)` of the test suite, with
`userService = service.NewUserService(mockRepo)`. -/
def register (L : GoLibs) (m : MockUserRepository) (c : RegisterCall) :
    Except GoError model.User × MockUserRepository :=
  (service.NewUserService (MockUserRepository.asRepo c.now1 c.now2)).Register L m c.rand c.req

/-- The store after a sequence of `Register` calls, first call first. -/
def registerAll (L : GoLibs) (m : MockUserRepository) : List RegisterCall → MockUserRepository
  | [] => m
  | c :: cs => registerAll L (register L m c).2 cs

end test

/-! ## Library instances used to evaluate the code on concrete inputs -/

/-- A stand-in for the libraries: case tables that change nothing above ASCII, a hasher
that writes the password after a salt of `rand` dots, a comparison that accepts a hash
ending in the password. Only used to run the code on ASCII inputs. -/
def asciiLibs : GoLibs :=
  { toLowerCase := fun r => r
    GenerateFromPassword := fun rand password _ =>
      .ok (String.mk (List.replicate rand '.') ++ "$" ++ password)
    CompareHashAndPassword := fun hashedPassword password =>
      if password.data.isSuffixOf hashedPassword.data then none
      else some (.errorString "hashedPassword is not the hash of the given password") }

namespace spec

open model

/-- The messages of `Validate` that mention a length bound. -/
def mentionsLengthBound (message : String) : Bool :=
  message = "username must be between 3 and 50 characters" ∨
    message = "password must be at least 6 characters"

/-- The five registration checks in their fixed order (username presence, username
length, email presence, password presence, password length), each as the test "the
request violates it" with the message of its validation error. -/
def validationChecks : List ((UserCreateRequest → Bool) × String) :=
  [ (fun r => decide (r.Username = ""), "username is required"),
    (fun r => decide (len r.Username < 3 ∨ 50 < len r.Username),
      "username must be between 3 and 50 characters"),
    (fun r => decide (r.Email = ""), "email is required"),
    (fun r => decide (r.Password = ""), "password is required"),
    (fun r => decide (len r.Password < 6), "password must be at least 6 characters") ]

/-- The validation error of the first check of `validationChecks` that the request
violates, if it violates one. -/
def firstViolation (r : UserCreateRequest) : Option GoError :=
  (validationChecks.find? (fun c => c.1 r)).map (fun c => NewValidationError c.2)

end spec

/-! ## Well-formed stores and other implementations of the store interface -/

namespace test

/-- The well-formedness of the in-memory store that `NewMockUserRepository` establishes
and `CreateUser` keeps: the counter counts the accounts, every account is filed under its
own username with an id between 1 and the counter, usernames, emails and ids are
pairwise distinct, and `usersByID` files the same accounts under their ids. -/
structure MockUserRepository.WellFormed (m : MockUserRepository) : Prop where
  counter : m.idCounter = (m.users.length : Int)
  filed : ∀ p ∈ m.users, p.1 = p.2.Username ∧ 0 < p.2.ID ∧ p.2.ID ≤ m.idCounter
  usernames : (m.users.map (fun p => p.1)).Nodup
  emails : (m.users.map (fun p => p.2.Email)).Nodup
  ids : (m.users.map (fun p => p.2.ID)).Nodup
  byID : m.usersByID = m.users.map (fun p => (p.2.ID, p.2))

/-- The in-memory store as one registration sees it when another client's `CreateUser` of
`other` lands between its `CheckUserExists` and its own `CreateUser` (the race between
check and insert): the existence check answers from the store as it stands, and the store
then takes the other client's insert. -/
def MockUserRepository.racing (other : model.User) (now1 now2 : Time) :
    repository.UserRepositoryInterface MockUserRepository :=
  { CreateUser := MockUserRepository.CreateUser now1 now2
    GetUserByUsername := MockUserRepository.GetUserByUsername
    GetUserByEmail := MockUserRepository.GetUserByEmail
    GetUserByID := MockUserRepository.GetUserByID
    CheckUserExists := fun m username email =>
      ((m.CheckUserExists username email).1, (m.CreateUser now1 now2 other).2.2) }

/-- A store that only counts the calls made to it: its state is the number of calls so
far, and every operation fails after adding one to it. -/
def countingRepo : repository.UserRepositoryInterface Nat :=
  { CreateUser := fun n user => (some (.errorString "store unavailable"), user, n + 1)
    GetUserByUsername := fun n _ => (.error (.errorString "store unavailable"), n + 1)
    GetUserByEmail := fun n _ => (.error (.errorString "store unavailable"), n + 1)
    GetUserByID := fun n _ => (.error (.errorString "store unavailable"), n + 1)
    CheckUserExists := fun n _ _ => (.error (.errorString "store unavailable"), n + 1) }

end test

/-! ## strconv and the lookup handler -/

namespace strconv

/-- The error `strconv.Atoi` returns for text that is not a decimal integer. -/
def ErrSyntax : GoError := .errorString "strconv.Atoi: invalid syntax"

/-- The error `strconv.Atoi` returns for a decimal integer outside the range of `int`. -/
def ErrRange : GoError := .errorString "strconv.Atoi: value out of range"

/-- `strconv.Atoi`: an optional sign followed by one or more decimal digits, read in base
10; a value outside the 64-bit range is an error. (The `*NumError` it returns also quotes
the input; the handler only tests the error against `nil`.) -/
def Atoi (s : String) : Except GoError Int :=
  let signed : Bool × List Char :=
    match s.data with
    | '-' :: rest => (true, rest)
    | '+' :: rest => (false, rest)
    | cs => (false, cs)
  if signed.2 = [] then
    .error ErrSyntax
  else if signed.2.all (fun ch => decide ('0'.toNat ≤ ch.toNat ∧ ch.toNat ≤ '9'.toNat)) then
    let n : Nat := signed.2.foldl (fun n ch => n * 10 + (ch.toNat - '0'.toNat)) 0
    let v : Int := if signed.1 then -(n : Int) else (n : Int)
    if -(2 ^ 63) ≤ v ∧ v < 2 ^ 63 then .ok v else .error ErrRange
  else
    .error ErrSyntax

end strconv

namespace handler

/-- `http.StatusOK`. -/
def StatusOK : Nat := 200
/-- `http.StatusNotFound`. -/
def StatusNotFound : Nat := 404

/-- The part of `UserHandler.GetUser` after its `switch`: the response for what the
chosen lookup returned. The type assertions look at the dynamic type of `err` itself. -/
def getUserRespond {σ : Type} : Except GoError model.User × σ → Response × σ
  | (.error err, st1) =>
    match err with
    | .ServiceError _ => (respondWithError StatusBadRequest err.Error, st1)
    | .RepositoryError _ => (respondWithError StatusNotFound "User not found", st1)
    | _ => (respondWithError StatusInternalServerError "Failed to retrieve user", st1)
  | (.ok user, st1) => ({ Code := StatusOK, Body := .user user.ToResponse }, st1)

/-- `UserHandler.GetUser`. The request is given by its method and by the values
`r.URL.Query().Get` returns for `username`, `email` and `id` (the empty string for a
parameter that is absent). -/
def UserHandler.GetUser {σ : Type} (L : GoLibs) (h : UserHandler σ) (st : σ)
    (Method : String) (username email idStr : String) : Response × σ :=
  if Method ≠ "GET" then
    ({ Code := StatusMethodNotAllowed, Body := .text "Method not allowed" }, st)
  else if username ≠ "" then
    getUserRespond (h.Service.GetByUsername L st username)
  else if email ≠ "" then
    getUserRespond (h.Service.GetByEmail L st email)
  else if idStr ≠ "" then
    match strconv.Atoi idStr with
    | .error _ => (respondWithError StatusBadRequest "Invalid user ID", st)
    | .ok id => getUserRespond (h.Service.GetByID st id)
  else
    (respondWithError StatusBadRequest "Please provide username, email, or id parameter", st)

end handler

/-! ## Recording the calls made to a store; the kinds of errors -/

namespace test

/-- A call made to a store, with its arguments. -/
inductive StoreCall where
  | CreateUser (user : model.User)
  | GetUserByUsername (username : String)
  | GetUserByEmail (email : String)
  | GetUserByID (id : Int)
  | CheckUserExists (username email : String)
deriving DecidableEq

/-- A store that answers as `inner` does and records every call made to it: its state is
the state of `inner` with the calls so far, latest last. -/
def recordingRepo {σ : Type} (inner : repository.UserRepositoryInterface σ) :
    repository.UserRepositoryInterface (σ × List StoreCall) :=
  { CreateUser := fun st user =>
      ((inner.CreateUser st.1 user).1, (inner.CreateUser st.1 user).2.1,
        ((inner.CreateUser st.1 user).2.2, st.2 ++ [.CreateUser user]))
    GetUserByUsername := fun st username =>
      ((inner.GetUserByUsername st.1 username).1,
        ((inner.GetUserByUsername st.1 username).2, st.2 ++ [.GetUserByUsername username]))
    GetUserByEmail := fun st email =>
      ((inner.GetUserByEmail st.1 email).1,
        ((inner.GetUserByEmail st.1 email).2, st.2 ++ [.GetUserByEmail email]))
    GetUserByID := fun st id =>
      ((inner.GetUserByID st.1 id).1,
        ((inner.GetUserByID st.1 id).2, st.2 ++ [.GetUserByID id]))
    CheckUserExists := fun st username email =>
      ((inner.CheckUserExists st.1 username email).1,
        ((inner.CheckUserExists st.1 username email).2,
          st.2 ++ [.CheckUserExists username email])) }

end test

namespace spec

/-- The dynamic type of a Go error value: what a type assertion or type switch can see
of it without reading its message. -/
inductive ErrorType where
  | ValidationError
  | ServiceError
  | RepositoryError
  | HashError
  | wrapError
  | errorString
deriving DecidableEq

/-- The dynamic type of an error. -/
def errorType : GoError → ErrorType
  | .ValidationError _ => .ValidationError
  | .ServiceError _ => .ServiceError
  | .RepositoryError _ => .RepositoryError
  | .HashError _ => .HashError
  | .wrapError _ _ => .wrapError
  | .errorString _ => .errorString

/-- An infrastructure error: an error of none of the types the layers use for the
validation, conflict, invalid-credentials and not-found kinds. -/
def isInfrastructure (e : GoError) : Bool :=
  match e with
  | .ValidationError _ => false
  | .ServiceError _ => false
  | .RepositoryError _ => false
  | _ => true

/-- The one store lookup that a GET request with these query parameters leads to, by the
priority username, then email, then id: the first non-empty parameter decides, a username
or email is looked up trimmed and lower-cased, and an id is looked up when it parses to a
positive integer. `none` when the request leads to no store lookup. -/
def storeLookup {σ : Type} (L : GoLibs) (repo : repository.UserRepositoryInterface σ) (st : σ)
    (username email idStr : String) : Option (Except GoError model.User × σ) :=
  if username ≠ "" then
    some (repo.GetUserByUsername st (strings.TrimSpace (strings.ToLower L username)))
  else if email ≠ "" then
    some (repo.GetUserByEmail st (strings.TrimSpace (strings.ToLower L email)))
  else
    match strconv.Atoi idStr with
    | .ok id => if 0 < id then some (repo.GetUserByID st id) else none
    | .error _ => none

end spec

/-! ## Properties of the libraries -/

namespace spec

/-- The property of the Unicode case tables that normalization relies on: the lower case
of a rune above ASCII is itself in lower case, so lower-casing it again changes
nothing. -/
def LowerCaseStable (L : GoLibs) : Prop :=
  ∀ r : Char, 0x7F < r.toNat → unicode.ToLower L (L.toLowerCase r) = L.toLowerCase r

end spec

/-! ## The Credential Hasher of the specification -/

namespace spec

end spec

open model service handler test spec

/-! ## Lemmas on strings -/

theorem len_eq_zero_iff (s : String) : len s = 0 ↔ s = "" := by
  obtain ⟨l⟩ := s
  cases l with
  | nil => exact ⟨fun _ => rfl, fun _ => rfl⟩
  | cons c cs =>
    constructor
    · intro h
      have hc := Char.utf8Size_pos c
      simp only [len, String.utf8ByteSize, String.utf8ByteSize.go] at h
      omega
    · intro h
      exact absurd h (by simp [String.ext_iff])

theorem len_pos_of_ne (s : String) (h : s ≠ "") : 0 < len s :=
  Nat.pos_of_ne_zero (fun h0 => h ((len_eq_zero_iff s).1 h0))

/-- `Validate` accepts a request exactly when all five checks pass. -/
theorem validate_eq_none_iff (r : UserCreateRequest) :
    r.Validate = none ↔
      (r.Username ≠ "" ∧ 3 ≤ len r.Username ∧ len r.Username ≤ 50) ∧ r.Email ≠ "" ∧
        (r.Password ≠ "" ∧ 6 ≤ len r.Password) := by
  unfold UserCreateRequest.Validate
  split_ifs <;> first | omega | (simp_all; omega) | simp_all

/-- C1 (as amended). `Validate` returns no error exactly when the username is non-empty
with length in [3,50], the email is non-empty and the password is non-empty with length
at least 6. Every request with a username of length 2 is rejected with the validation
error about the username length. Every request with a password of length 5 is rejected
with a validation error, and that error is the one about the password length when the
username has length in [3,50] and the email is non-empty. -/
theorem validate_ok_iff (r : UserCreateRequest) :
    (r.Validate = none ↔
      (r.Username ≠ "" ∧ 3 ≤ len r.Username ∧ len r.Username ≤ 50) ∧ r.Email ≠ "" ∧
        (r.Password ≠ "" ∧ 6 ≤ len r.Password)) ∧
    (len r.Username = 2 →
      r.Validate = some (.ValidationError "username must be between 3 and 50 characters")) ∧
    (len r.Password = 5 → ∃ message, r.Validate = some (.ValidationError message)) ∧
    (len r.Password = 5 → 3 ≤ len r.Username → len r.Username ≤ 50 → r.Email ≠ "" →
      r.Validate = some (.ValidationError "password must be at least 6 characters")) := by
  have hu := len_eq_zero_iff r.Username
  have hp := len_eq_zero_iff r.Password
  refine ⟨validate_eq_none_iff r, ?_, ?_, ?_⟩
  · intro h2
    have hne : r.Username ≠ "" := fun h0 => by rw [hu.2 h0] at h2; omega
    simp [UserCreateRequest.Validate, NewValidationError, hne, h2]
  · intro h5
    have hne : r.Password ≠ "" := fun h0 => by rw [hp.2 h0] at h5; omega
    unfold UserCreateRequest.Validate NewValidationError
    split_ifs
    · exact ⟨_, rfl⟩
    · exact ⟨_, rfl⟩
    · exact ⟨_, rfl⟩
    · exact ⟨_, rfl⟩
    · omega
  · intro h5 h3 h50 he
    have hne : r.Password ≠ "" := fun h0 => by rw [hp.2 h0] at h5; omega
    have hune : r.Username ≠ "" := fun h0 => by rw [hu.2 h0] at h3; omega
    have h3' : ¬ len r.Username < 3 := by omega
    have h50' : ¬ len r.Username > 50 := by omega
    simp [UserCreateRequest.Validate, NewValidationError, hne, hune, he, h5, h3', h50']

/-- Instance of `validate_ok_iff`: the request of the test suite is accepted, `ab` is
rejected for its length, and `12345` is rejected for its length in a request that is
otherwise valid. -/
theorem validate_ok_iff_witness :
    (UserCreateRequest.Validate ⟨"testuser", "test@example.com", "password123"⟩ = none) ∧
    (UserCreateRequest.Validate ⟨"ab", "test@example.com", "password123"⟩ =
      some (.ValidationError "username must be between 3 and 50 characters")) ∧
    (UserCreateRequest.Validate ⟨"testuser", "test@example.com", "12345"⟩ =
      some (.ValidationError "password must be at least 6 characters")) :=
  ⟨(validate_ok_iff ⟨"testuser", "test@example.com", "password123"⟩).1.2
      (by simp [len]; decide),
    (validate_ok_iff ⟨"ab", "test@example.com", "password123"⟩).2.1 (by decide),
    (validate_ok_iff ⟨"testuser", "test@example.com", "12345"⟩).2.2.2
      (by decide) (by decide) (by decide) (by decide)⟩

/-- C1, counterexample. The password `12345` has length 5, yet the request with a valid
username and no email is rejected with `email is required`, a message that mentions no
length bound. -/
theorem validate_short_password_other_message :
    len (UserCreateRequest.mk "testuser" "" "12345").Password = 5 ∧
    UserCreateRequest.Validate ⟨"testuser", "", "12345"⟩ =
      some (.ValidationError "email is required") ∧
    spec.mentionsLengthBound "email is required" = false := by
  refine ⟨by decide, by rfl, by decide⟩

/-- `Validate` returns the validation error of the first violated check. -/
theorem validate_eq_firstViolation (r : UserCreateRequest) :
    r.Validate = firstViolation r := by
  simp only [UserCreateRequest.Validate, firstViolation, validationChecks, List.find?]
  by_cases h1 : r.Username = ""
  · simp [h1]
  by_cases h2 : len r.Username < 3 ∨ 50 < len r.Username
  · simp [h1, h2]
  by_cases h3 : r.Email = ""
  · simp [h1, h2, h3]
  by_cases h4 : r.Password = ""
  · simp [h1, h2, h3, h4]
  by_cases h5 : len r.Password < 6
  · simp [h1, h2, h3, h4, h5]
  · simp [h1, h2, h3, h4, h5]

/-- C2. A request that violates at least one of the five checks gets from `Validate` the
validation error of the first violated check in the order username presence, username
length, email presence, password presence, password length: the list of checks splits
as `before ++ c :: after` where the request passes every check of `before`, violates `c`,
and the error carries the message of `c`, whatever the checks of `after` say. -/
theorem validate_first_violation (r : UserCreateRequest)
    (hv : ∃ c ∈ validationChecks, c.1 r = true) :
    ∃ before c after, validationChecks = before ++ c :: after ∧
      (∀ d ∈ before, d.1 r = false) ∧ c.1 r = true ∧
      r.Validate = some (.ValidationError c.2) := by
  have hsome : (validationChecks.find? (fun c => c.1 r)).isSome := by
    rw [List.find?_isSome]
    exact hv
  obtain ⟨c, hc⟩ := Option.isSome_iff_exists.1 hsome
  obtain ⟨hcr, before, after, hsplit, hbefore⟩ := List.find?_eq_some.1 hc
  refine ⟨before, c, after, hsplit, ?_, hcr, ?_⟩
  · intro d hd
    simpa using hbefore d hd
  · rw [validate_eq_firstViolation, firstViolation, hc]
    rfl

/-- Instances of `validate_first_violation`: an empty username with a 3-character password
yields `username is required`, and a missing email with a short password yields
`email is required`. -/
theorem validate_first_violation_witness :
    (∃ before c after, validationChecks = before ++ c :: after ∧
      (∀ d ∈ before, d.1 ⟨"", "test@example.com", "123"⟩ = false) ∧
      c.1 ⟨"", "test@example.com", "123"⟩ = true ∧
      UserCreateRequest.Validate ⟨"", "test@example.com", "123"⟩ =
        some (.ValidationError c.2)) ∧
    UserCreateRequest.Validate ⟨"", "test@example.com", "123"⟩ =
      some (.ValidationError "username is required") ∧
    UserCreateRequest.Validate ⟨"testuser", "", "123"⟩ =
      some (.ValidationError "email is required") :=
  ⟨validate_first_violation ⟨"", "test@example.com", "123"⟩
      ⟨(fun r => decide (r.Username = ""), "username is required"),
        by simp [validationChecks], by decide⟩,
    by rfl, by rfl⟩

/-! ## The in-memory store -/

theorem wrapInt64_of_range (x : Int) (h0 : -(2 ^ 63) ≤ x) (h1 : x < 2 ^ 63) :
    wrapInt64 x = x := by
  unfold wrapInt64
  norm_num at h0 h1 ⊢
  omega

theorem GoMap.filter_of_lookup_none {κ ν : Type} [DecidableEq κ] (m : GoMap κ ν) (k : κ)
    (h : GoMap.lookup m k = none) : m.filter (fun p => decide (p.1 ≠ k)) = m := by
  rw [List.filter_eq_self]
  intro p hp
  simp only [GoMap.lookup, Option.map_eq_none', List.find?_eq_none, decide_eq_true_eq] at h
  simpa using h p hp

theorem GoMap.assign_of_lookup_none {κ ν : Type} [DecidableEq κ] (m : GoMap κ ν) (k : κ)
    (v : ν) (h : GoMap.lookup m k = none) : GoMap.assign m k v = (k, v) :: m := by
  rw [GoMap.assign, GoMap.filter_of_lookup_none m k h]

theorem GoMap.lookup_none_iff {κ ν : Type} [DecidableEq κ] (m : GoMap κ ν) (k : κ) :
    GoMap.lookup m k = none ↔ ∀ p ∈ m, p.1 ≠ k := by
  simp [GoMap.lookup]

theorem checkUserExists_eq (m : MockUserRepository) (username email : String) :
    m.CheckUserExists username email =
      (.ok ((GoMap.lookup m.users username).isSome ||
        m.users.any (fun p => decide (p.2.Email = email))), m) := by
  unfold MockUserRepository.CheckUserExists
  cases (GoMap.lookup m.users username).isSome <;>
    cases m.users.any (fun p => decide (p.2.Email = email)) <;> simp

theorem createUser_fresh (now1 now2 : Time) (m : MockUserRepository) (user : model.User)
    (hk : GoMap.lookup m.users user.Username = none)
    (he : m.users.any (fun p => decide (p.2.Email = user.Email)) = false) :
    m.CreateUser now1 now2 user =
      (none, { user with ID := wrapInt64 (m.idCounter + 1), CreatedAt := now1, UpdatedAt := now2 },
        { users := (user.Username,
            { user with ID := wrapInt64 (m.idCounter + 1), CreatedAt := now1, UpdatedAt := now2 })
              :: m.users,
          usersByID := GoMap.assign m.usersByID (wrapInt64 (m.idCounter + 1))
            { user with ID := wrapInt64 (m.idCounter + 1), CreatedAt := now1, UpdatedAt := now2 },
          idCounter := wrapInt64 (m.idCounter + 1) }) := by
  unfold MockUserRepository.CreateUser
  rw [if_neg (by simp [hk]), if_neg (by simp [he])]
  simp only [GoMap.assign_of_lookup_none _ _ _ hk]

/-- A valid request whose normalized username and email the store does not hold, and
whose password the hasher accepts, is registered: the normalized account gets the next
id and is added to both maps. -/
theorem register_fresh (L : GoLibs) (m : MockUserRepository) (c : RegisterCall) (h : String)
    (hval : c.req.Validate = none)
    (hk : GoMap.lookup m.users (strings.TrimSpace (strings.ToLower L c.req.Username)) = none)
    (he : m.users.any
      (fun p => decide (p.2.Email = strings.TrimSpace (strings.ToLower L c.req.Email))) = false)
    (hgen : L.GenerateFromPassword c.rand c.req.Password hashutil.DefaultCost = .ok h) :
    register L m c =
      (.ok { ID := wrapInt64 (m.idCounter + 1),
             Username := strings.TrimSpace (strings.ToLower L c.req.Username),
             Email := strings.TrimSpace (strings.ToLower L c.req.Email),
             PasswordHash := h, CreatedAt := c.now1, UpdatedAt := c.now2 },
       { users := (strings.TrimSpace (strings.ToLower L c.req.Username),
                    { ID := wrapInt64 (m.idCounter + 1),
                      Username := strings.TrimSpace (strings.ToLower L c.req.Username),
                      Email := strings.TrimSpace (strings.ToLower L c.req.Email),
                      PasswordHash := h, CreatedAt := c.now1, UpdatedAt := c.now2 }) :: m.users,
         usersByID := GoMap.assign m.usersByID (wrapInt64 (m.idCounter + 1))
                    { ID := wrapInt64 (m.idCounter + 1),
                      Username := strings.TrimSpace (strings.ToLower L c.req.Username),
                      Email := strings.TrimSpace (strings.ToLower L c.req.Email),
                      PasswordHash := h, CreatedAt := c.now1, UpdatedAt := c.now2 },
         idCounter := wrapInt64 (m.idCounter + 1) }) := by
  have hpw : c.req.Password ≠ "" := ((validate_eq_none_iff c.req).1 hval).2.2.1
  have hc := createUser_fresh c.now1 c.now2 m
    { ID := 0, Username := strings.TrimSpace (strings.ToLower L c.req.Username),
      Email := strings.TrimSpace (strings.ToLower L c.req.Email), PasswordHash := h,
      CreatedAt := 0, UpdatedAt := 0 } hk he
  simp [register, UserService.Register, NewUserService, hval,
    MockUserRepository.asRepo, checkUserExists_eq, hk, he,
    hashutil.HashPassword, hpw, hgen, hc]

/-- What one `Register` call does to the mock: either the store is left as it was and
the call failed, or the call succeeded and the normalized account was added under a
username and an email that the store did not hold. -/
theorem register_cases (L : GoLibs) (m : MockUserRepository) (c : RegisterCall) :
    (∃ err, register L m c = (.error err, m)) ∨
    (∃ h, c.req.Validate = none ∧
      L.GenerateFromPassword c.rand c.req.Password hashutil.DefaultCost = .ok h ∧
      GoMap.lookup m.users (strings.TrimSpace (strings.ToLower L c.req.Username)) = none ∧
      (∀ p ∈ m.users, p.2.Email ≠ strings.TrimSpace (strings.ToLower L c.req.Email)) ∧
      register L m c =
        (.ok { ID := wrapInt64 (m.idCounter + 1),
               Username := strings.TrimSpace (strings.ToLower L c.req.Username),
               Email := strings.TrimSpace (strings.ToLower L c.req.Email),
               PasswordHash := h, CreatedAt := c.now1, UpdatedAt := c.now2 },
         { users := (strings.TrimSpace (strings.ToLower L c.req.Username),
                      { ID := wrapInt64 (m.idCounter + 1),
                        Username := strings.TrimSpace (strings.ToLower L c.req.Username),
                        Email := strings.TrimSpace (strings.ToLower L c.req.Email),
                        PasswordHash := h, CreatedAt := c.now1, UpdatedAt := c.now2 }) :: m.users,
           usersByID := GoMap.assign m.usersByID (wrapInt64 (m.idCounter + 1))
                      { ID := wrapInt64 (m.idCounter + 1),
                        Username := strings.TrimSpace (strings.ToLower L c.req.Username),
                        Email := strings.TrimSpace (strings.ToLower L c.req.Email),
                        PasswordHash := h, CreatedAt := c.now1, UpdatedAt := c.now2 },
           idCounter := wrapInt64 (m.idCounter + 1) })) := by
  cases hval : c.req.Validate with
  | some err =>
    left
    exact ⟨err, by simp [register, UserService.Register, hval]⟩
  | none =>
    have hpw : c.req.Password ≠ "" := ((validate_eq_none_iff c.req).1 hval).2.2.1
    cases hk : (GoMap.lookup m.users (strings.TrimSpace (strings.ToLower L c.req.Username))).isSome with
    | true =>
      left
      exact ⟨NewServiceError "user with this username or email already exists",
        by simp [register, UserService.Register, NewUserService, hval,
          MockUserRepository.asRepo, checkUserExists_eq, hk]⟩
    | false =>
      cases he : m.users.any
          (fun p => decide (p.2.Email = strings.TrimSpace (strings.ToLower L c.req.Email))) with
      | true =>
        left
        exact ⟨NewServiceError "user with this username or email already exists",
          by simp [register, UserService.Register, NewUserService, hval,
            MockUserRepository.asRepo, checkUserExists_eq, hk, he]⟩
      | false =>
        have hk' : GoMap.lookup m.users
            (strings.TrimSpace (strings.ToLower L c.req.Username)) = none := by
          simpa using hk
        cases hgen : L.GenerateFromPassword c.rand c.req.Password hashutil.DefaultCost with
        | error e =>
          left
          exact ⟨fmt.Errorf "failed to hash password: "
              (hashutil.NewHashError ("failed to hash password: " ++ e.Error)),
            by simp [register, UserService.Register, NewUserService, hval,
              MockUserRepository.asRepo, checkUserExists_eq, hk, he,
              hashutil.HashPassword, hpw, hgen]⟩
        | ok h =>
          right
          refine ⟨h, rfl, rfl, hk', ?_, ?_⟩
          · intro p hp heq
            have := List.any_eq_false.1 he p hp
            simp [heq] at this
          · exact register_fresh L m c h hval hk' he hgen

/-! ## Registration -/

/-- C4, failing input. The request with username `"  a"` (three bytes), a valid email and
password passes `Validate`, and `Register` hands the store an account whose username is
the normalized `"a"`, of length 1: the length check ran on the username as typed, before
trimming. -/
theorem register_stores_short_username (L : GoLibs) (rand : Nat) (now1 now2 : Time)
    (h : String)
    (hgen : L.GenerateFromPassword rand "secret1" hashutil.DefaultCost = .ok h) :
    UserCreateRequest.Validate ⟨"  a", "a@x.com", "secret1"⟩ = none ∧
    register L NewMockUserRepository ⟨⟨"  a", "a@x.com", "secret1"⟩, rand, now1, now2⟩ =
      (.ok ⟨1, "a", "a@x.com", h, now1, now2⟩,
       ⟨[("a", ⟨1, "a", "a@x.com", h, now1, now2⟩)], [(1, ⟨1, "a", "a@x.com", h, now1, now2⟩)], 1⟩) ∧
    len "a" = 1 := by
  refine ⟨by rfl, ?_, by rfl⟩
  have hf := register_fresh L NewMockUserRepository
    ⟨⟨"  a", "a@x.com", "secret1"⟩, rand, now1, now2⟩ h (by rfl) (by rfl) (by rfl) hgen
  rw [hf]
  rfl

/-- Instance of `register_stores_short_username` for the stand-in libraries. -/
theorem register_stores_short_username_witness :
    UserCreateRequest.Validate ⟨"  a", "a@x.com", "secret1"⟩ = none ∧
    register asciiLibs NewMockUserRepository ⟨⟨"  a", "a@x.com", "secret1"⟩, 0, 7, 8⟩ =
      (.ok ⟨1, "a", "a@x.com", "$secret1", 7, 8⟩,
       ⟨[("a", ⟨1, "a", "a@x.com", "$secret1", 7, 8⟩)],
        [(1, ⟨1, "a", "a@x.com", "$secret1", 7, 8⟩)], 1⟩) ∧
    len "a" = 1 :=
  register_stores_short_username asciiLibs 0 7 8 "$secret1" (by rfl)

/-- C5, failing input. The request with email `"   "` (three spaces), a valid username
and password passes `Validate`, and `Register` hands the store an account whose email is
the empty string: the presence check ran on the email as typed, before trimming. -/
theorem register_stores_empty_email (L : GoLibs) (rand : Nat) (now1 now2 : Time)
    (h : String)
    (hgen : L.GenerateFromPassword rand "password123" hashutil.DefaultCost = .ok h) :
    UserCreateRequest.Validate ⟨"testuser", "   ", "password123"⟩ = none ∧
    register L NewMockUserRepository ⟨⟨"testuser", "   ", "password123"⟩, rand, now1, now2⟩ =
      (.ok ⟨1, "testuser", "", h, now1, now2⟩,
       ⟨[("testuser", ⟨1, "testuser", "", h, now1, now2⟩)],
        [(1, ⟨1, "testuser", "", h, now1, now2⟩)], 1⟩) := by
  refine ⟨by rfl, ?_⟩
  have hf := register_fresh L NewMockUserRepository
    ⟨⟨"testuser", "   ", "password123"⟩, rand, now1, now2⟩ h (by rfl) (by rfl) (by rfl) hgen
  rw [hf]
  rfl

/-- Instance of `register_stores_empty_email` for the stand-in libraries. -/
theorem register_stores_empty_email_witness :
    UserCreateRequest.Validate ⟨"testuser", "   ", "password123"⟩ = none ∧
    register asciiLibs NewMockUserRepository ⟨⟨"testuser", "   ", "password123"⟩, 0, 7, 8⟩ =
      (.ok ⟨1, "testuser", "", "$password123", 7, 8⟩,
       ⟨[("testuser", ⟨1, "testuser", "", "$password123", 7, 8⟩)],
        [(1, ⟨1, "testuser", "", "$password123", 7, 8⟩)], 1⟩) :=
  register_stores_empty_email asciiLibs 0 7 8 "$password123" (by rfl)

/-- The store answers `CheckUserExists` with "exists" for this username and email. -/
theorem holds_of_cons (users : GoMap String model.User) (k : String) (v : model.User)
    (username email : String)
    (h : (GoMap.lookup users username).isSome = true ∨
      users.any (fun p => decide (p.2.Email = email)) = true) :
    (GoMap.lookup ((k, v) :: users) username).isSome = true ∨
      List.any ((k, v) :: users) (fun p => decide (p.2.Email = email)) = true := by
  rcases h with h | h
  · left
    by_cases hk : k = username
    · simp [GoMap.lookup, List.find?, hk]
    · simpa [GoMap.lookup, List.find?, hk] using h
  · right
    simp only [List.any_cons, h, Bool.or_true]

/-- A `Register` call keeps every username and email that the store already holds. -/
theorem register_keeps (L : GoLibs) (m : MockUserRepository) (c : RegisterCall)
    (username email : String)
    (h : (GoMap.lookup m.users username).isSome = true ∨
      m.users.any (fun p => decide (p.2.Email = email)) = true) :
    (GoMap.lookup (register L m c).2.users username).isSome = true ∨
      (register L m c).2.users.any (fun p => decide (p.2.Email = email)) = true := by
  rcases register_cases L m c with ⟨err, herr⟩ | ⟨hh, _, _, _, _, hreg⟩
  · rw [herr]
    exact h
  · rw [hreg]
    exact holds_of_cons _ _ _ _ _ h

theorem registerAll_keeps (L : GoLibs) (cs : List RegisterCall) (m : MockUserRepository)
    (username email : String)
    (h : (GoMap.lookup m.users username).isSome = true ∨
      m.users.any (fun p => decide (p.2.Email = email)) = true) :
    (GoMap.lookup (registerAll L m cs).users username).isSome = true ∨
      (registerAll L m cs).users.any (fun p => decide (p.2.Email = email)) = true := by
  induction cs generalizing m with
  | nil => exact h
  | cons c cs ih => exact ih _ (register_keeps L m c username email h)

/-- A valid request whose normalized username or email the store holds is refused with
the conflict error, and the store is left as it was. -/
theorem register_existing (L : GoLibs) (m : MockUserRepository) (c : RegisterCall)
    (hval : c.req.Validate = none)
    (h : (GoMap.lookup m.users (strings.TrimSpace (strings.ToLower L c.req.Username))).isSome
        = true ∨
      m.users.any (fun p => decide
        (p.2.Email = strings.TrimSpace (strings.ToLower L c.req.Email))) = true) :
    register L m c =
      (.error (.ServiceError "user with this username or email already exists"), m) := by
  have hb : ((GoMap.lookup m.users
      (strings.TrimSpace (strings.ToLower L c.req.Username))).isSome ||
      m.users.any (fun p => decide
        (p.2.Email = strings.TrimSpace (strings.ToLower L c.req.Email)))) = true := by
    rcases h with h | h <;> simp [h]
  simp only [register, UserService.Register, NewUserService, hval,
    MockUserRepository.asRepo, checkUserExists_eq, hb]
  rfl

/-- C6 (as amended). After a successful `Register` of `c1`, and after any further
`Register` calls `cs`, every `Register` whose request passes `Validate` and whose
username equals that of `c1` up to letter case and surrounding white space, or whose
email equals that of `c1` up to letter case and surrounding white space (with any
username), fails with the conflict error `user with this username or email already
exists` and leaves the store exactly as it was before the call. -/
theorem register_duplicate_conflict (L : GoLibs) (m m1 : MockUserRepository)
    (c1 c2 : RegisterCall) (cs : List RegisterCall) (a : User)
    (h1 : register L m c1 = (.ok a, m1))
    (hval : c2.req.Validate = none)
    (hdup : strings.TrimSpace (strings.ToLower L c2.req.Username) =
        strings.TrimSpace (strings.ToLower L c1.req.Username) ∨
      strings.TrimSpace (strings.ToLower L c2.req.Email) =
        strings.TrimSpace (strings.ToLower L c1.req.Email)) :
    register L (registerAll L m1 cs) c2 =
      (.error (.ServiceError "user with this username or email already exists"),
        registerAll L m1 cs) := by
  apply register_existing L _ c2 hval
  rcases register_cases L m c1 with ⟨err, herr⟩ | ⟨hh, _, _, _, _, hreg⟩
  · rw [herr] at h1
    cases h1
  · rw [hreg] at h1
    have hm1 : m1.users = (strings.TrimSpace (strings.ToLower L c1.req.Username),
        { ID := wrapInt64 (m.idCounter + 1),
          Username := strings.TrimSpace (strings.ToLower L c1.req.Username),
          Email := strings.TrimSpace (strings.ToLower L c1.req.Email),
          PasswordHash := hh, CreatedAt := c1.now1, UpdatedAt := c1.now2 }) :: m.users := by
      cases h1
      rfl
    rcases hdup with hu | he
    · have h0 : (GoMap.lookup m1.users
          (strings.TrimSpace (strings.ToLower L c2.req.Username))).isSome = true := by
        rw [hm1, hu]
        simp [GoMap.lookup, List.find?]
      rcases registerAll_keeps L cs m1 _ (strings.TrimSpace (strings.ToLower L c2.req.Email))
        (Or.inl h0) with h | h
      · exact Or.inl h
      · exact Or.inr h
    · have h0 : m1.users.any (fun p => decide
          (p.2.Email = strings.TrimSpace (strings.ToLower L c2.req.Email))) = true := by
        rw [hm1, he]
        simp
      rcases registerAll_keeps L cs m1 (strings.TrimSpace (strings.ToLower L c2.req.Username)) _
        (Or.inr h0) with h | h
      · exact Or.inl h
      · exact Or.inr h

/-- Instance of `register_duplicate_conflict`: after `testuser` and then `other` have
registered, `"  TestUser "` with a different email is refused with the conflict error. -/
theorem register_duplicate_conflict_witness :
    register asciiLibs
        (registerAll asciiLibs
          ⟨[("testuser", ⟨1, "testuser", "test@example.com", "$password123", 7, 8⟩)],
           [(1, ⟨1, "testuser", "test@example.com", "$password123", 7, 8⟩)], 1⟩
          [⟨⟨"other", "other@example.com", "password123"⟩, 0, 9, 10⟩])
        ⟨⟨"  TestUser ", "different@example.com", "password123"⟩, 0, 11, 12⟩ =
      (.error (.ServiceError "user with this username or email already exists"),
        registerAll asciiLibs
          ⟨[("testuser", ⟨1, "testuser", "test@example.com", "$password123", 7, 8⟩)],
           [(1, ⟨1, "testuser", "test@example.com", "$password123", 7, 8⟩)], 1⟩
          [⟨⟨"other", "other@example.com", "password123"⟩, 0, 9, 10⟩]) :=
  register_duplicate_conflict asciiLibs NewMockUserRepository
    ⟨[("testuser", ⟨1, "testuser", "test@example.com", "$password123", 7, 8⟩)],
     [(1, ⟨1, "testuser", "test@example.com", "$password123", 7, 8⟩)], 1⟩
    ⟨⟨"testuser", "test@example.com", "password123"⟩, 0, 7, 8⟩
    ⟨⟨"  TestUser ", "different@example.com", "password123"⟩, 0, 11, 12⟩
    [⟨⟨"other", "other@example.com", "password123"⟩, 0, 9, 10⟩]
    ⟨1, "testuser", "test@example.com", "$password123", 7, 8⟩
    (by rfl) (by rfl) (Or.inl (by rfl))

/-- C6, counterexample. `alice` registers successfully. A second `Register` with the same
email and password and the username `alice` followed by 46 spaces (the same username up
to surrounding white space, 51 bytes as typed) fails with the validation error about the
username length, not with the conflict error; so does a second `Register` with the same
email and the other username `al`. -/
theorem register_duplicate_validation_error :
    register asciiLibs NewMockUserRepository
        ⟨⟨"alice", "alice@x.com", "secret1"⟩, 0, 7, 8⟩ =
      (.ok ⟨1, "alice", "alice@x.com", "$secret1", 7, 8⟩,
        ⟨[("alice", ⟨1, "alice", "alice@x.com", "$secret1", 7, 8⟩)],
         [(1, ⟨1, "alice", "alice@x.com", "$secret1", 7, 8⟩)], 1⟩) ∧
    strings.TrimSpace (strings.ToLower asciiLibs ("alice" ++ String.mk (List.replicate 46 ' '))) =
      strings.TrimSpace (strings.ToLower asciiLibs "alice") ∧
    register asciiLibs
        ⟨[("alice", ⟨1, "alice", "alice@x.com", "$secret1", 7, 8⟩)],
         [(1, ⟨1, "alice", "alice@x.com", "$secret1", 7, 8⟩)], 1⟩
        ⟨⟨"alice" ++ String.mk (List.replicate 46 ' '), "alice@x.com", "secret1"⟩, 0, 9, 10⟩ =
      (.error (.ValidationError "username must be between 3 and 50 characters"),
        ⟨[("alice", ⟨1, "alice", "alice@x.com", "$secret1", 7, 8⟩)],
         [(1, ⟨1, "alice", "alice@x.com", "$secret1", 7, 8⟩)], 1⟩) ∧
    register asciiLibs
        ⟨[("alice", ⟨1, "alice", "alice@x.com", "$secret1", 7, 8⟩)],
         [(1, ⟨1, "alice", "alice@x.com", "$secret1", 7, 8⟩)], 1⟩
        ⟨⟨"al", "alice@x.com", "secret1"⟩, 0, 9, 10⟩ =
      (.error (.ValidationError "username must be between 3 and 50 characters"),
        ⟨[("alice", ⟨1, "alice", "alice@x.com", "$secret1", 7, 8⟩)],
         [(1, ⟨1, "alice", "alice@x.com", "$secret1", 7, 8⟩)], 1⟩) ∧
    GoError.ValidationError "username must be between 3 and 50 characters" ≠
      GoError.ServiceError "user with this username or email already exists" := by
  refine ⟨by rfl, by rfl, by rfl, by rfl, by decide⟩

/-! ## Uniqueness of usernames, emails and ids -/

theorem wellFormed_new : NewMockUserRepository.WellFormed :=
  { counter := rfl
    filed := by intro p hp; cases hp
    usernames := List.nodup_nil
    emails := List.nodup_nil
    ids := List.nodup_nil
    byID := rfl }

/-- One `Register` call keeps the store well formed, as long as the counter stays below
the point where a 64-bit `int` wraps around. -/
theorem register_wellFormed (L : GoLibs) (m : MockUserRepository) (c : RegisterCall)
    (hwf : m.WellFormed) (hlen : m.users.length + 1 < 2 ^ 63) :
    (register L m c).2.WellFormed ∧
      (register L m c).2.users.length ≤ m.users.length + 1 := by
  rcases register_cases L m c with ⟨err, herr⟩ | ⟨hh, _, _, hk, he, hreg⟩
  · rw [herr]
    exact ⟨hwf, Nat.le_succ _⟩
  · rw [hreg]
    have hw : wrapInt64 (m.idCounter + 1) = m.idCounter + 1 := by
      apply wrapInt64_of_range
      · rw [hwf.counter]; omega
      · rw [hwf.counter]
        have : ((m.users.length + 1 : Nat) : Int) < 2 ^ 63 := by exact_mod_cast hlen
        simpa using this
    have hfresh : GoMap.lookup m.usersByID (m.idCounter + 1) = none := by
      rw [GoMap.lookup_none_iff, hwf.byID]
      intro q hq
      obtain ⟨p, hp, rfl⟩ := List.mem_map.1 hq
      have := (hwf.filed p hp).2.2
      simp only
      omega
    refine ⟨?_, by simp⟩
    rw [hw]
    constructor
    · simp only [List.length_cons, hwf.counter]
      push_cast
      ring
    · intro p hp
      rcases List.mem_cons.1 hp with rfl | hp
      · refine ⟨rfl, ?_, le_refl _⟩
        simp only
        rw [hwf.counter]
        omega
      · obtain ⟨h1, h2, h3⟩ := hwf.filed p hp
        exact ⟨h1, h2, by simp only; omega⟩
    · simp only [List.map_cons, List.nodup_cons]
      refine ⟨?_, hwf.usernames⟩
      intro hmem
      obtain ⟨p, hp, hpk⟩ := List.mem_map.1 hmem
      exact (GoMap.lookup_none_iff _ _).1 hk p hp hpk
    · simp only [List.map_cons, List.nodup_cons]
      refine ⟨?_, hwf.emails⟩
      intro hmem
      obtain ⟨p, hp, hpe⟩ := List.mem_map.1 hmem
      exact he p hp hpe
    · simp only [List.map_cons, List.nodup_cons]
      refine ⟨?_, hwf.ids⟩
      intro hmem
      obtain ⟨p, hp, hpi⟩ := List.mem_map.1 hmem
      have := (hwf.filed p hp).2.2
      omega
    · rw [hwf.byID] at hfresh
      simp only [hwf.byID, GoMap.assign_of_lookup_none _ _ _ hfresh, List.map_cons]

theorem registerAll_wellFormed (L : GoLibs) (cs : List RegisterCall) (m : MockUserRepository)
    (hwf : m.WellFormed) (hlen : m.users.length + cs.length < 2 ^ 63) :
    (registerAll L m cs).WellFormed := by
  induction cs generalizing m with
  | nil => exact hwf
  | cons c cs ih =>
    simp only [List.length_cons] at hlen
    obtain ⟨h1, h2⟩ := register_wellFormed L m c hwf (by omega)
    exact ih _ h1 (by omega)

/-- In a well-formed store no two accounts share a username, an email or an id, and every
id is positive. -/
theorem accounts_distinct_of_wellFormed (m : MockUserRepository) (hwf : m.WellFormed) :
    (m.accounts.map (fun u => u.Username)).Nodup ∧
    (m.accounts.map (fun u => u.Email)).Nodup ∧
    (m.accounts.map (fun u => u.ID)).Nodup ∧
    (∀ u ∈ m.accounts, 0 < u.ID) ∧
    m.usersByID.map (fun q => q.2) = m.accounts := by
  have hname : m.accounts.map (fun u => u.Username) = m.users.map (fun p => p.1) := by
    simp only [MockUserRepository.accounts, List.map_map]
    apply List.map_congr_left
    intro p hp
    exact (hwf.filed p hp).1.symm
  refine ⟨hname ▸ hwf.usernames, ?_, ?_, ?_, ?_⟩
  · simpa [MockUserRepository.accounts, List.map_map, Function.comp_def] using hwf.emails
  · simpa [MockUserRepository.accounts, List.map_map, Function.comp_def] using hwf.ids
  · intro u hu
    obtain ⟨p, hp, rfl⟩ := List.mem_map.1 hu
    exact (hwf.filed p hp).2.1
  · simp [hwf.byID, MockUserRepository.accounts, List.map_map, Function.comp_def]

/-- C7. Starting from the empty in-memory store, after every sequence of `Register` calls
with arbitrary arguments (fewer than 2^63 calls, the point where the 64-bit id counter
would wrap around), no two stored accounts share a username, no two share an email, all
ids are pairwise distinct and positive, and the id index holds the same accounts. -/
theorem registerAll_accounts_distinct (L : GoLibs) (cs : List RegisterCall)
    (hlen : cs.length < 2 ^ 63) :
    ((registerAll L NewMockUserRepository cs).accounts.map (fun u => u.Username)).Nodup ∧
    ((registerAll L NewMockUserRepository cs).accounts.map (fun u => u.Email)).Nodup ∧
    ((registerAll L NewMockUserRepository cs).accounts.map (fun u => u.ID)).Nodup ∧
    (∀ u ∈ (registerAll L NewMockUserRepository cs).accounts, 0 < u.ID) ∧
    (registerAll L NewMockUserRepository cs).usersByID.map (fun q => q.2) =
      (registerAll L NewMockUserRepository cs).accounts :=
  accounts_distinct_of_wellFormed _
    (registerAll_wellFormed L cs NewMockUserRepository wellFormed_new
      (by simpa [NewMockUserRepository] using hlen))

/-- Instance of `registerAll_accounts_distinct`: the three registrations of the test
suite (one accepted, two refused as duplicates) followed by a fresh one. -/
theorem registerAll_accounts_distinct_witness :
    ((registerAll asciiLibs NewMockUserRepository
        [⟨⟨"testuser", "test@example.com", "password123"⟩, 0, 1, 2⟩,
         ⟨⟨"testuser", "different@example.com", "password123"⟩, 0, 3, 4⟩,
         ⟨⟨"differentuser", "test@example.com", "password123"⟩, 0, 5, 6⟩,
         ⟨⟨"Another", "Another@Example.com", "password123"⟩, 0, 7, 8⟩]).accounts.map
      (fun u => (u.ID, u.Username, u.Email))) =
      [(2, "another", "another@example.com"), (1, "testuser", "test@example.com")] ∧
    ((registerAll asciiLibs NewMockUserRepository
        [⟨⟨"testuser", "test@example.com", "password123"⟩, 0, 1, 2⟩,
         ⟨⟨"testuser", "different@example.com", "password123"⟩, 0, 3, 4⟩,
         ⟨⟨"differentuser", "test@example.com", "password123"⟩, 0, 5, 6⟩,
         ⟨⟨"Another", "Another@Example.com", "password123"⟩, 0, 7, 8⟩]).accounts.map
      (fun u => u.Username)).Nodup :=
  ⟨by rfl,
    (registerAll_accounts_distinct asciiLibs
      [⟨⟨"testuser", "test@example.com", "password123"⟩, 0, 1, 2⟩,
       ⟨⟨"testuser", "different@example.com", "password123"⟩, 0, 3, 4⟩,
       ⟨⟨"differentuser", "test@example.com", "password123"⟩, 0, 5, 6⟩,
       ⟨⟨"Another", "Another@Example.com", "password123"⟩, 0, 7, 8⟩] (by decide)).1⟩

/-! ## Failure of the insert after a passed pre-check -/

/-- C8 (as amended). When the request is valid, the duplicate pre-check reports no existing
account and the hasher returns a hash, but the store's insert then fails with an error
`err` (its uniqueness constraint or anything else), `Register` returns `err` wrapped as
`failed to create user: ...`, an error that is neither a `ValidationError` nor a
`ServiceError`, and the request layer answers 500 with `Failed to create user`, not the
409 of the pre-check conflict. -/
theorem register_insert_failure {σ : Type} (L : GoLibs) (s : UserService σ) (st st1 st2 : σ)
    (rand : Nat) (req : UserCreateRequest) (h : String) (err : GoError) (user1 : User)
    (hval : req.Validate = none)
    (hcheck : s.Repo.CheckUserExists st (strings.TrimSpace (strings.ToLower L req.Username))
      (strings.TrimSpace (strings.ToLower L req.Email)) = (.ok false, st1))
    (hgen : L.GenerateFromPassword rand req.Password hashutil.DefaultCost = .ok h)
    (hcreate : s.Repo.CreateUser st1
      { ID := 0, Username := strings.TrimSpace (strings.ToLower L req.Username),
        Email := strings.TrimSpace (strings.ToLower L req.Email), PasswordHash := h,
        CreatedAt := 0, UpdatedAt := 0 } = (some err, user1, st2)) :
    s.Register L st rand req =
      (.error (.wrapError ("failed to create user: " ++ err.Error) err), st2) ∧
    (NewUserHandler s).RegisterUser L st rand "POST" (.ok req) =
      ({ Code := 500, Body := .error "Failed to create user" }, st2) := by
  have hpw : req.Password ≠ "" := ((validate_eq_none_iff req).1 hval).2.2.1
  have hreg : s.Register L st rand req =
      (.error (.wrapError ("failed to create user: " ++ err.Error) err), st2) := by
    simp [UserService.Register, hval, hcheck, hashutil.HashPassword, hpw, hgen, hcreate,
      fmt.Errorf]
  refine ⟨hreg, ?_⟩
  simp [UserHandler.RegisterUser, NewUserHandler, hreg, respondWithError,
    StatusInternalServerError]

/-- Instance of `register_insert_failure`: `alice` registers while another client's insert
of the same username lands between the check and the insert. -/
theorem register_insert_failure_witness :
    (NewUserService (MockUserRepository.racing ⟨0, "alice", "other@x.com", "$other12", 0, 0⟩ 7 8)).Register
        asciiLibs NewMockUserRepository 0 ⟨"alice", "alice@x.com", "secret1"⟩ =
      (.error (.wrapError ("failed to create user: " ++
          (GoError.RepositoryError "user already exists").Error)
          (.RepositoryError "user already exists")),
        ⟨[("alice", ⟨1, "alice", "other@x.com", "$other12", 7, 8⟩)],
         [(1, ⟨1, "alice", "other@x.com", "$other12", 7, 8⟩)], 1⟩) ∧
    (NewUserHandler (NewUserService
        (MockUserRepository.racing ⟨0, "alice", "other@x.com", "$other12", 0, 0⟩ 7 8))).RegisterUser
        asciiLibs NewMockUserRepository 0 "POST" (.ok ⟨"alice", "alice@x.com", "secret1"⟩) =
      ({ Code := 500, Body := .error "Failed to create user" },
        ⟨[("alice", ⟨1, "alice", "other@x.com", "$other12", 7, 8⟩)],
         [(1, ⟨1, "alice", "other@x.com", "$other12", 7, 8⟩)], 1⟩) :=
  register_insert_failure asciiLibs
    (NewUserService (MockUserRepository.racing ⟨0, "alice", "other@x.com", "$other12", 0, 0⟩ 7 8))
    NewMockUserRepository
    ⟨[("alice", ⟨1, "alice", "other@x.com", "$other12", 7, 8⟩)],
     [(1, ⟨1, "alice", "other@x.com", "$other12", 7, 8⟩)], 1⟩
    ⟨[("alice", ⟨1, "alice", "other@x.com", "$other12", 7, 8⟩)],
     [(1, ⟨1, "alice", "other@x.com", "$other12", 7, 8⟩)], 1⟩
    0 ⟨"alice", "alice@x.com", "secret1"⟩ "$secret1" (.RepositoryError "user already exists")
    ⟨0, "alice", "alice@x.com", "$secret1", 0, 0⟩
    (by rfl) (by rfl) (by rfl) (by rfl)

/-- C8, counterexample. `alice` registers against the in-memory store while another
client's insert of the username `alice` lands between the pre-check and the insert. The
pre-check reports no existing account, the insert fails on the store's uniqueness check
(`user already exists`), and `Register` returns a wrapped error, not the `ServiceError`
of the pre-check conflict; the request layer answers 500. The same request against a
store that already holds `alice` gets the pre-check conflict and 409. -/
theorem register_insert_conflict_is_internal_error :
    ((MockUserRepository.racing ⟨0, "alice", "other@x.com", "$other12", 0, 0⟩ 7 8).CheckUserExists
        NewMockUserRepository "alice" "alice@x.com").1 = .ok false ∧
    ((NewUserService (MockUserRepository.racing ⟨0, "alice", "other@x.com", "$other12", 0, 0⟩ 7 8)).Register
        asciiLibs NewMockUserRepository 0 ⟨"alice", "alice@x.com", "secret1"⟩).1 =
      .error (.wrapError "failed to create user: user already exists"
        (.RepositoryError "user already exists")) ∧
    ((NewUserHandler (NewUserService
        (MockUserRepository.racing ⟨0, "alice", "other@x.com", "$other12", 0, 0⟩ 7 8))).RegisterUser
        asciiLibs NewMockUserRepository 0 "POST" (.ok ⟨"alice", "alice@x.com", "secret1"⟩)).1 =
      { Code := 500, Body := .error "Failed to create user" } ∧
    ((NewUserHandler (NewUserService (MockUserRepository.asRepo 7 8))).RegisterUser asciiLibs
        ⟨[("alice", ⟨1, "alice", "other@x.com", "$other12", 7, 8⟩)],
         [(1, ⟨1, "alice", "other@x.com", "$other12", 7, 8⟩)], 1⟩
        0 "POST" (.ok ⟨"alice", "alice@x.com", "secret1"⟩)).1 =
      { Code := 409, Body := .error "user with this username or email already exists" } := by
  refine ⟨by rfl, by rfl, by rfl, by rfl⟩

/-! ## Invalid input and lookups -/

/-- C9. Whenever `Register`, `GetByID`, `GetByUsername`, `GetByEmail` or
`ValidateCredentials` is given invalid input (a request that fails `Validate`, an id that
is zero or negative, an empty username or email, an empty username or password for
credentials), it returns its failure together with the store state it was given, for
every implementation of the store: no store operation has run, since an implementation
may change its state on every call. -/
theorem invalid_input_leaves_store {σ : Type} (L : GoLibs) (s : UserService σ) (st : σ) :
    (∀ (rand : Nat) (req : UserCreateRequest) (err : GoError), req.Validate = some err →
      s.Register L st rand req = (.error err, st)) ∧
    (∀ id : Int, id ≤ 0 →
      s.GetByID st id = (.error (.ServiceError "invalid user ID"), st)) ∧
    s.GetByUsername L st "" = (.error (.ServiceError "username is required"), st) ∧
    s.GetByEmail L st "" = (.error (.ServiceError "email is required"), st) ∧
    (∀ username password : String, username = "" ∨ password = "" →
      s.ValidateCredentials L st username password =
        (.error (.ServiceError "username and password are required"), st)) := by
  refine ⟨?_, ?_, ?_, ?_, ?_⟩
  · intro rand req err hval
    simp [UserService.Register, hval]
  · intro id hid
    simp [UserService.GetByID, hid, NewServiceError]
  · simp [UserService.GetByUsername, NewServiceError]
  · simp [UserService.GetByEmail, NewServiceError]
  · intro username password h
    simp [UserService.ValidateCredentials, h, NewServiceError]

/-- Instance of `invalid_input_leaves_store` on the store that counts its calls: after
each of the five operations on invalid input the count is still 0. -/
theorem invalid_input_leaves_store_witness :
    (NewUserService countingRepo).Register asciiLibs 0 0 ⟨"ab", "test@example.com", "password123"⟩ =
      (.error (.ValidationError "username must be between 3 and 50 characters"), 0) ∧
    (NewUserService countingRepo).GetByID 0 (-1) =
      (.error (.ServiceError "invalid user ID"), 0) ∧
    (NewUserService countingRepo).GetByUsername asciiLibs 0 "" =
      (.error (.ServiceError "username is required"), 0) ∧
    (NewUserService countingRepo).GetByEmail asciiLibs 0 "" =
      (.error (.ServiceError "email is required"), 0) ∧
    (NewUserService countingRepo).ValidateCredentials asciiLibs 0 "testuser" "" =
      (.error (.ServiceError "username and password are required"), 0) ∧
    ((NewUserService countingRepo).GetByID 0 1).2 = 1 :=
  ⟨(invalid_input_leaves_store asciiLibs (NewUserService countingRepo) 0).1 0
      ⟨"ab", "test@example.com", "password123"⟩ _ (by rfl),
    (invalid_input_leaves_store asciiLibs (NewUserService countingRepo) 0).2.1 (-1) (by decide),
    (invalid_input_leaves_store asciiLibs (NewUserService countingRepo) 0).2.2.1,
    (invalid_input_leaves_store asciiLibs (NewUserService countingRepo) 0).2.2.2.1,
    (invalid_input_leaves_store asciiLibs (NewUserService countingRepo) 0).2.2.2.2
      "testuser" "" (Or.inr rfl),
    by rfl⟩

/-- C10. `GetByID` fails with the service's validation failure `invalid user ID` when the
id is zero or negative, and otherwise returns exactly what the store's `GetUserByID`
returns for that id, account or error alike. `GetByUsername` and `GetByEmail` return
exactly what the store returns for the trimmed, lower-cased key when the key is
non-empty, and fail with `username is required`, `email is required` when it is empty. -/
theorem lookups_delegate {σ : Type} (L : GoLibs) (s : UserService σ) (st : σ) :
    (∀ id : Int, id ≤ 0 →
      s.GetByID st id = (.error (NewServiceError "invalid user ID"), st)) ∧
    (∀ id : Int, 0 < id → s.GetByID st id = s.Repo.GetUserByID st id) ∧
    (∀ username : String, username ≠ "" →
      s.GetByUsername L st username =
        s.Repo.GetUserByUsername st (strings.TrimSpace (strings.ToLower L username))) ∧
    s.GetByUsername L st "" = (.error (NewServiceError "username is required"), st) ∧
    (∀ email : String, email ≠ "" →
      s.GetByEmail L st email =
        s.Repo.GetUserByEmail st (strings.TrimSpace (strings.ToLower L email))) ∧
    s.GetByEmail L st "" = (.error (NewServiceError "email is required"), st) := by
  refine ⟨?_, ?_, ?_, ?_, ?_, ?_⟩
  · intro id hid
    simp [UserService.GetByID, hid]
  · intro id hid
    have hn : ¬ id ≤ 0 := by omega
    simp only [UserService.GetByID, hn, if_false]
    rcases s.Repo.GetUserByID st id with ⟨r | r, st1⟩ <;> rfl
  · intro username hne
    simp only [UserService.GetByUsername, hne, if_false]
    rcases s.Repo.GetUserByUsername st (strings.TrimSpace (strings.ToLower L username))
      with ⟨r | r, st1⟩ <;> rfl
  · simp [UserService.GetByUsername]
  · intro email hne
    simp only [UserService.GetByEmail, hne, if_false]
    rcases s.Repo.GetUserByEmail st (strings.TrimSpace (strings.ToLower L email))
      with ⟨r | r, st1⟩ <;> rfl
  · simp [UserService.GetByEmail]

/-- Instance of `lookups_delegate` on the in-memory store holding `testuser`: the lookups
by id 1, by `" TestUser "` and by `"TEST@example.com"` return the stored account, the
lookup by id 2 returns the store's `user not found` unchanged, and id 0 is refused. -/
theorem lookups_delegate_witness :
    (NewUserService (MockUserRepository.asRepo 0 0)).GetByID
        ⟨[("testuser", ⟨1, "testuser", "test@example.com", "$password123", 7, 8⟩)],
         [(1, ⟨1, "testuser", "test@example.com", "$password123", 7, 8⟩)], 1⟩ 2 =
      MockUserRepository.GetUserByID
        ⟨[("testuser", ⟨1, "testuser", "test@example.com", "$password123", 7, 8⟩)],
         [(1, ⟨1, "testuser", "test@example.com", "$password123", 7, 8⟩)], 1⟩ 2 ∧
    ((NewUserService (MockUserRepository.asRepo 0 0)).GetByID
        ⟨[("testuser", ⟨1, "testuser", "test@example.com", "$password123", 7, 8⟩)],
         [(1, ⟨1, "testuser", "test@example.com", "$password123", 7, 8⟩)], 1⟩ 2).1 =
      .error (.RepositoryError "user not found") ∧
    ((NewUserService (MockUserRepository.asRepo 0 0)).GetByID
        ⟨[("testuser", ⟨1, "testuser", "test@example.com", "$password123", 7, 8⟩)],
         [(1, ⟨1, "testuser", "test@example.com", "$password123", 7, 8⟩)], 1⟩ 1).1 =
      .ok ⟨1, "testuser", "test@example.com", "$password123", 7, 8⟩ ∧
    ((NewUserService (MockUserRepository.asRepo 0 0)).GetByUsername asciiLibs
        ⟨[("testuser", ⟨1, "testuser", "test@example.com", "$password123", 7, 8⟩)],
         [(1, ⟨1, "testuser", "test@example.com", "$password123", 7, 8⟩)], 1⟩ " TestUser ").1 =
      .ok ⟨1, "testuser", "test@example.com", "$password123", 7, 8⟩ ∧
    ((NewUserService (MockUserRepository.asRepo 0 0)).GetByEmail asciiLibs
        ⟨[("testuser", ⟨1, "testuser", "test@example.com", "$password123", 7, 8⟩)],
         [(1, ⟨1, "testuser", "test@example.com", "$password123", 7, 8⟩)], 1⟩ "TEST@example.com").1 =
      .ok ⟨1, "testuser", "test@example.com", "$password123", 7, 8⟩ ∧
    ((NewUserService (MockUserRepository.asRepo 0 0)).GetByID
        ⟨[("testuser", ⟨1, "testuser", "test@example.com", "$password123", 7, 8⟩)],
         [(1, ⟨1, "testuser", "test@example.com", "$password123", 7, 8⟩)], 1⟩ 0).1 =
      .error (.ServiceError "invalid user ID") :=
  ⟨(lookups_delegate asciiLibs (NewUserService (MockUserRepository.asRepo 0 0))
      ⟨[("testuser", ⟨1, "testuser", "test@example.com", "$password123", 7, 8⟩)],
       [(1, ⟨1, "testuser", "test@example.com", "$password123", 7, 8⟩)], 1⟩).2.1 2 (by decide),
    by rfl, by rfl, by rfl, by rfl, by rfl⟩

/-! ## Lookups after a registration -/

theorem find?_of_unique {α : Type} (l : List α) (q : α → Bool) (x : α) (hx : x ∈ l)
    (hq : q x = true) (huniq : ∀ y ∈ l, q y = true → y = x) : l.find? q = some x := by
  induction l with
  | nil => cases hx
  | cons y ys ih =>
    by_cases hy : q y = true
    · have : y = x := huniq y (List.mem_cons_self _ _) hy
      subst this
      simp only [List.find?, hy]
    · have hxy : x ∈ ys := by
        rcases List.mem_cons.1 hx with rfl | h
        · exact absurd hq hy
        · exact h
      have hy' : q y = false := by simpa using hy
      simp only [List.find?, hy']
      exact ih hxy (fun z hz => huniq z (List.mem_cons_of_mem _ hz))

/-- A `Register` call keeps every entry of the store. -/
theorem register_mem (L : GoLibs) (m : MockUserRepository) (c : RegisterCall)
    (p : String × User) (hp : p ∈ m.users) : p ∈ (register L m c).2.users := by
  rcases register_cases L m c with ⟨err, herr⟩ | ⟨hh, _, _, _, _, hreg⟩
  · rw [herr]
    exact hp
  · rw [hreg]
    exact List.mem_cons_of_mem _ hp

theorem registerAll_mem (L : GoLibs) (cs : List RegisterCall) (m : MockUserRepository)
    (p : String × User) (hp : p ∈ m.users) : p ∈ (registerAll L m cs).users := by
  induction cs generalizing m with
  | nil => exact hp
  | cons c cs ih => exact ih _ (register_mem L m c p hp)

theorem register_length_le (L : GoLibs) (m : MockUserRepository) (c : RegisterCall) :
    (register L m c).2.users.length ≤ m.users.length + 1 := by
  rcases register_cases L m c with ⟨err, herr⟩ | ⟨hh, _, _, _, _, hreg⟩
  · rw [herr]
    exact Nat.le_succ _
  · rw [hreg]
    simp

theorem registerAll_length_le (L : GoLibs) (cs : List RegisterCall) (m : MockUserRepository) :
    (registerAll L m cs).users.length ≤ m.users.length + cs.length := by
  induction cs generalizing m with
  | nil => exact Nat.le_refl _
  | cons c cs ih =>
    have h1 := ih (register L m c).2
    have h2 := register_length_le L m c
    simp only [List.length_cons]
    show (registerAll L (register L m c).2 cs).users.length ≤ _
    omega

/-- In a well-formed store an account is found under its username. -/
theorem wellFormed_lookup_username (m : MockUserRepository) (hwf : m.WellFormed)
    (p : String × User) (hp : p ∈ m.users) : GoMap.lookup m.users p.1 = some p.2 := by
  have h := find?_of_unique m.users (fun q => decide (q.1 = p.1)) p hp (by simp)
    (fun y hy hq => List.inj_on_of_nodup_map hwf.usernames hy hp (by simpa using hq))
  simp [GoMap.lookup, h]

/-- In a well-formed store an account is the one found by its email. -/
theorem wellFormed_find_email (m : MockUserRepository) (hwf : m.WellFormed)
    (p : String × User) (hp : p ∈ m.users) :
    m.users.find? (fun q => decide (q.2.Email = p.2.Email)) = some p :=
  find?_of_unique m.users (fun q => decide (q.2.Email = p.2.Email)) p hp (by simp)
    (fun y hy hq => List.inj_on_of_nodup_map hwf.emails hy hp (by simpa using hq))

/-- In a well-formed store an account is found under its id. -/
theorem wellFormed_lookup_id (m : MockUserRepository) (hwf : m.WellFormed)
    (p : String × User) (hp : p ∈ m.users) : GoMap.lookup m.usersByID p.2.ID = some p.2 := by
  have hmem : (p.2.ID, p.2) ∈ m.users.map (fun q => (q.2.ID, q.2)) :=
    List.mem_map_of_mem (fun q : String × User => (q.2.ID, q.2)) hp
  have h := find?_of_unique (m.users.map (fun q => (q.2.ID, q.2)))
    (fun r => decide (r.1 = p.2.ID)) (p.2.ID, p.2) hmem (by simp)
    (by
      intro y hy hq
      obtain ⟨q, hq1, rfl⟩ := List.mem_map.1 hy
      have hid : q.2.ID = p.2.ID := by simpa using hq
      have : q = p := List.inj_on_of_nodup_map hwf.ids hq1 hp hid
      rw [this])
  rw [hwf.byID]
  simp [GoMap.lookup, h]

/-- C11. Let `Register` succeed on a request `(u, e, p)` against the in-memory store as
any run of `Register` calls from the empty store has left it, and return the account `a`.
Then, also after any further `Register` calls, `GetByUsername(u)`, `GetByEmail(e)` and
`GetByID(a.ID)` all succeed and return that same account `a`, with `u` and `e` exactly as
they were typed at registration. (The runs are shorter than 2^63 calls, the point where
the 64-bit id counter would wrap around.) -/
theorem lookups_after_register (L : GoLibs) (cs0 cs : List RegisterCall) (c : RegisterCall)
    (a : User) (m1 : MockUserRepository) (now1 now2 : Time)
    (hreg : register L (registerAll L NewMockUserRepository cs0) c = (.ok a, m1))
    (hlen : cs0.length + 1 + cs.length < 2 ^ 63) :
    (NewUserService (MockUserRepository.asRepo now1 now2)).GetByUsername L
        (registerAll L m1 cs) c.req.Username = (.ok a, registerAll L m1 cs) ∧
    (NewUserService (MockUserRepository.asRepo now1 now2)).GetByEmail L
        (registerAll L m1 cs) c.req.Email = (.ok a, registerAll L m1 cs) ∧
    (NewUserService (MockUserRepository.asRepo now1 now2)).GetByID
        (registerAll L m1 cs) a.ID = (.ok a, registerAll L m1 cs) := by
  have hlen0 := registerAll_length_le L cs0 NewMockUserRepository
  simp only [NewMockUserRepository, List.length_nil, Nat.zero_add] at hlen0
  have hwf0 : (registerAll L NewMockUserRepository cs0).WellFormed :=
    registerAll_wellFormed L cs0 _ wellFormed_new (by simp [NewMockUserRepository]; omega)
  obtain ⟨hwf1, hlen1⟩ := register_wellFormed L _ c hwf0 (by
    simp only [NewMockUserRepository]; omega)
  rw [hreg] at hwf1 hlen1
  simp only at hwf1 hlen1
  have hwf2 : (registerAll L m1 cs).WellFormed :=
    registerAll_wellFormed L cs m1 hwf1 (by simp only [NewMockUserRepository] at hlen1; omega)
  rcases register_cases L (registerAll L NewMockUserRepository cs0) c with
    ⟨err, herr⟩ | ⟨hh, hval, _, _, _, hreg'⟩
  · rw [herr] at hreg
    cases hreg
  · rw [hreg'] at hreg
    obtain ⟨hvu, hve, hvp⟩ := (validate_eq_none_iff c.req).1 hval
    have ha : a.Username = strings.TrimSpace (strings.ToLower L c.req.Username) ∧
        a.Email = strings.TrimSpace (strings.ToLower L c.req.Email) ∧
        (a.Username, a) ∈ m1.users := by
      cases hreg
      exact ⟨rfl, rfl, List.mem_cons_self _ _⟩
    obtain ⟨hau, hae, hmem1⟩ := ha
    have hmem2 := registerAll_mem L cs m1 _ hmem1
    have hu := wellFormed_lookup_username _ hwf2 _ hmem2
    have he := wellFormed_find_email _ hwf2 _ hmem2
    have hi := wellFormed_lookup_id _ hwf2 _ hmem2
    have hpos : ¬ a.ID ≤ 0 := by
      have := (hwf2.filed _ hmem2).2.1
      simp only at this
      omega
    simp only at hu he hi
    refine ⟨?_, ?_, ?_⟩
    · simp [UserService.GetByUsername, NewUserService, MockUserRepository.asRepo,
        MockUserRepository.GetUserByUsername, hvu.1, ← hau, hu]
    · simp [UserService.GetByEmail, NewUserService, MockUserRepository.asRepo,
        MockUserRepository.GetUserByEmail, hve, ← hae, he]
    · simp [UserService.GetByID, NewUserService, MockUserRepository.asRepo,
        MockUserRepository.GetUserByID, hpos, hi]

/-- Instance of `lookups_after_register`: `" TestUser "` registers with the email
`"Test@Example.com"` after `first`, `other` registers later, and the three lookups, with
the username and email as typed, return the account with id 2. -/
theorem lookups_after_register_witness :
    (NewUserService (MockUserRepository.asRepo 0 0)).GetByUsername asciiLibs
        (registerAll asciiLibs
          ⟨[("testuser", ⟨2, "testuser", "test@example.com", "$password123", 3, 4⟩),
            ("first", ⟨1, "first", "first@example.com", "$password123", 1, 2⟩)],
           [(2, ⟨2, "testuser", "test@example.com", "$password123", 3, 4⟩),
            (1, ⟨1, "first", "first@example.com", "$password123", 1, 2⟩)], 2⟩
          [⟨⟨"other", "other@example.com", "password123"⟩, 0, 5, 6⟩])
        " TestUser " =
      (.ok ⟨2, "testuser", "test@example.com", "$password123", 3, 4⟩,
        registerAll asciiLibs
          ⟨[("testuser", ⟨2, "testuser", "test@example.com", "$password123", 3, 4⟩),
            ("first", ⟨1, "first", "first@example.com", "$password123", 1, 2⟩)],
           [(2, ⟨2, "testuser", "test@example.com", "$password123", 3, 4⟩),
            (1, ⟨1, "first", "first@example.com", "$password123", 1, 2⟩)], 2⟩
          [⟨⟨"other", "other@example.com", "password123"⟩, 0, 5, 6⟩]) ∧
    (NewUserService (MockUserRepository.asRepo 0 0)).GetByEmail asciiLibs
        (registerAll asciiLibs
          ⟨[("testuser", ⟨2, "testuser", "test@example.com", "$password123", 3, 4⟩),
            ("first", ⟨1, "first", "first@example.com", "$password123", 1, 2⟩)],
           [(2, ⟨2, "testuser", "test@example.com", "$password123", 3, 4⟩),
            (1, ⟨1, "first", "first@example.com", "$password123", 1, 2⟩)], 2⟩
          [⟨⟨"other", "other@example.com", "password123"⟩, 0, 5, 6⟩])
        "Test@Example.com" =
      (.ok ⟨2, "testuser", "test@example.com", "$password123", 3, 4⟩,
        registerAll asciiLibs
          ⟨[("testuser", ⟨2, "testuser", "test@example.com", "$password123", 3, 4⟩),
            ("first", ⟨1, "first", "first@example.com", "$password123", 1, 2⟩)],
           [(2, ⟨2, "testuser", "test@example.com", "$password123", 3, 4⟩),
            (1, ⟨1, "first", "first@example.com", "$password123", 1, 2⟩)], 2⟩
          [⟨⟨"other", "other@example.com", "password123"⟩, 0, 5, 6⟩]) ∧
    (NewUserService (MockUserRepository.asRepo 0 0)).GetByID
        (registerAll asciiLibs
          ⟨[("testuser", ⟨2, "testuser", "test@example.com", "$password123", 3, 4⟩),
            ("first", ⟨1, "first", "first@example.com", "$password123", 1, 2⟩)],
           [(2, ⟨2, "testuser", "test@example.com", "$password123", 3, 4⟩),
            (1, ⟨1, "first", "first@example.com", "$password123", 1, 2⟩)], 2⟩
          [⟨⟨"other", "other@example.com", "password123"⟩, 0, 5, 6⟩])
        2 =
      (.ok ⟨2, "testuser", "test@example.com", "$password123", 3, 4⟩,
        registerAll asciiLibs
          ⟨[("testuser", ⟨2, "testuser", "test@example.com", "$password123", 3, 4⟩),
            ("first", ⟨1, "first", "first@example.com", "$password123", 1, 2⟩)],
           [(2, ⟨2, "testuser", "test@example.com", "$password123", 3, 4⟩),
            (1, ⟨1, "first", "first@example.com", "$password123", 1, 2⟩)], 2⟩
          [⟨⟨"other", "other@example.com", "password123"⟩, 0, 5, 6⟩]) :=
  lookups_after_register asciiLibs
    [⟨⟨"first", "first@example.com", "password123"⟩, 0, 1, 2⟩]
    [⟨⟨"other", "other@example.com", "password123"⟩, 0, 5, 6⟩]
    ⟨⟨" TestUser ", "Test@Example.com", "password123"⟩, 0, 3, 4⟩
    ⟨2, "testuser", "test@example.com", "$password123", 3, 4⟩
    ⟨[("testuser", ⟨2, "testuser", "test@example.com", "$password123", 3, 4⟩),
      ("first", ⟨1, "first", "first@example.com", "$password123", 1, 2⟩)],
     [(2, ⟨2, "testuser", "test@example.com", "$password123", 3, 4⟩),
      (1, ⟨1, "first", "first@example.com", "$password123", 1, 2⟩)], 2⟩
    0 0 (by rfl) (by decide)

/-! ## The lookup handler -/

theorem getByUsername_eq {σ : Type} (L : GoLibs) (s : UserService σ) (st : σ)
    (username : String) (hne : username ≠ "") :
    s.GetByUsername L st username =
      s.Repo.GetUserByUsername st (strings.TrimSpace (strings.ToLower L username)) := by
  simp only [UserService.GetByUsername, hne, if_false]
  rcases s.Repo.GetUserByUsername st (strings.TrimSpace (strings.ToLower L username))
    with ⟨r | r, st1⟩ <;> rfl

theorem getByEmail_eq {σ : Type} (L : GoLibs) (s : UserService σ) (st : σ)
    (email : String) (hne : email ≠ "") :
    s.GetByEmail L st email =
      s.Repo.GetUserByEmail st (strings.TrimSpace (strings.ToLower L email)) := by
  simp only [UserService.GetByEmail, hne, if_false]
  rcases s.Repo.GetUserByEmail st (strings.TrimSpace (strings.ToLower L email))
    with ⟨r | r, st1⟩ <;> rfl

theorem getByID_eq {σ : Type} (s : UserService σ) (st : σ) (id : Int) (hid : 0 < id) :
    s.GetByID st id = s.Repo.GetUserByID st id := by
  have hn : ¬ id ≤ 0 := by omega
  simp only [UserService.GetByID, hn, if_false]
  rcases s.Repo.GetUserByID st id with ⟨r | r, st1⟩ <;> rfl

theorem getByID_nonpos {σ : Type} (s : UserService σ) (st : σ) (id : Int) (hid : id ≤ 0) :
    s.GetByID st id = (.error (.ServiceError "invalid user ID"), st) := by
  simp [UserService.GetByID, hid, NewServiceError]

theorem atoi_ne_empty (idStr : String) (id : Int) (h : strconv.Atoi idStr = .ok id) :
    idStr ≠ "" := by
  intro h0
  rw [h0] at h
  have h1 : strconv.Atoi "" = .error strconv.ErrSyntax := by rfl
  rw [h1] at h
  cases h

/-- C12 (as amended). For every triple of query parameters (username, email, id) of a GET
request, the `GetUser` handler chooses by priority username, then email, then id, and
makes at most one lookup; the calls that reach the store are recorded. A non-empty
username is looked up (trimmed, lower-cased) and email and id are ignored, even a
malformed id. Otherwise a non-empty email is looked up and id is ignored. Otherwise a
non-empty id is parsed: a positive id is looked up; a zero or negative id is refused by
`GetByID` with 400 `invalid user ID` and a malformed id by the handler with 400
`Invalid user ID`, both without any call to the store. When all three are empty no lookup
is made and the answer is the missing-parameter bad request. -/
theorem getUser_dispatch {σ : Type} (L : GoLibs) (inner : repository.UserRepositoryInterface σ)
    (st : σ) (username email idStr : String) :
    (username ≠ "" →
      (NewUserHandler (NewUserService (recordingRepo inner))).GetUser L (st, []) "GET"
          username email idStr =
        getUserRespond ((recordingRepo inner).GetUserByUsername (st, [])
          (strings.TrimSpace (strings.ToLower L username))) ∧
      ((NewUserHandler (NewUserService (recordingRepo inner))).GetUser L (st, []) "GET"
          username email idStr).2.2 =
        [.GetUserByUsername (strings.TrimSpace (strings.ToLower L username))]) ∧
    (username = "" → email ≠ "" →
      (NewUserHandler (NewUserService (recordingRepo inner))).GetUser L (st, []) "GET"
          username email idStr =
        getUserRespond ((recordingRepo inner).GetUserByEmail (st, [])
          (strings.TrimSpace (strings.ToLower L email))) ∧
      ((NewUserHandler (NewUserService (recordingRepo inner))).GetUser L (st, []) "GET"
          username email idStr).2.2 =
        [.GetUserByEmail (strings.TrimSpace (strings.ToLower L email))]) ∧
    (username = "" → email = "" → ∀ id : Int, strconv.Atoi idStr = .ok id → 0 < id →
      (NewUserHandler (NewUserService (recordingRepo inner))).GetUser L (st, []) "GET"
          username email idStr =
        getUserRespond ((recordingRepo inner).GetUserByID (st, []) id) ∧
      ((NewUserHandler (NewUserService (recordingRepo inner))).GetUser L (st, []) "GET"
          username email idStr).2.2 = [.GetUserByID id]) ∧
    (username = "" → email = "" → ∀ id : Int, strconv.Atoi idStr = .ok id → id ≤ 0 →
      (NewUserHandler (NewUserService (recordingRepo inner))).GetUser L (st, []) "GET"
          username email idStr =
        ({ Code := 400, Body := .error "invalid user ID" }, (st, []))) ∧
    (username = "" → email = "" → idStr ≠ "" → ∀ e : GoError, strconv.Atoi idStr = .error e →
      (NewUserHandler (NewUserService (recordingRepo inner))).GetUser L (st, []) "GET"
          username email idStr =
        ({ Code := 400, Body := .error "Invalid user ID" }, (st, []))) ∧
    (username = "" → email = "" → idStr = "" →
      (NewUserHandler (NewUserService (recordingRepo inner))).GetUser L (st, []) "GET"
          username email idStr =
        ({ Code := 400, Body := .error "Please provide username, email, or id parameter" },
          (st, []))) := by
  refine ⟨?_, ?_, ?_, ?_, ?_, ?_⟩
  · intro hu
    have h : (NewUserHandler (NewUserService (recordingRepo inner))).GetUser L (st, []) "GET"
          username email idStr =
        getUserRespond ((recordingRepo inner).GetUserByUsername (st, [])
          (strings.TrimSpace (strings.ToLower L username))) := by
      simp [UserHandler.GetUser, NewUserHandler, hu, getByUsername_eq, NewUserService]
    refine ⟨h, ?_⟩
    rw [h]
    simp only [recordingRepo, getUserRespond]
    rcases (inner.GetUserByUsername st (strings.TrimSpace (strings.ToLower L username))).1
      with e | u
    · cases e <;> rfl
    · rfl
  · intro hu he
    have h : (NewUserHandler (NewUserService (recordingRepo inner))).GetUser L (st, []) "GET"
          username email idStr =
        getUserRespond ((recordingRepo inner).GetUserByEmail (st, [])
          (strings.TrimSpace (strings.ToLower L email))) := by
      simp [UserHandler.GetUser, NewUserHandler, hu, he, getByEmail_eq, NewUserService]
    refine ⟨h, ?_⟩
    rw [h]
    simp only [recordingRepo, getUserRespond]
    rcases (inner.GetUserByEmail st (strings.TrimSpace (strings.ToLower L email))).1
      with e | u
    · cases e <;> rfl
    · rfl
  · intro hu he id hid hpos
    have hne := atoi_ne_empty idStr id hid
    have h : (NewUserHandler (NewUserService (recordingRepo inner))).GetUser L (st, []) "GET"
          username email idStr =
        getUserRespond ((recordingRepo inner).GetUserByID (st, []) id) := by
      simp [UserHandler.GetUser, NewUserHandler, hu, he, hne, hid, getByID_eq _ _ _ hpos,
        NewUserService]
    refine ⟨h, ?_⟩
    rw [h]
    simp only [recordingRepo, getUserRespond]
    rcases (inner.GetUserByID st id).1 with e | u
    · cases e <;> rfl
    · rfl
  · intro hu he id hid hneg
    have hne := atoi_ne_empty idStr id hid
    simp [UserHandler.GetUser, NewUserHandler, hu, he, hne, hid, getByID_nonpos _ _ _ hneg,
      getUserRespond, respondWithError, StatusBadRequest, GoError.Error]
  · intro hu he hne e herr
    simp [UserHandler.GetUser, NewUserHandler, hu, he, hne, herr, respondWithError,
      StatusBadRequest]
  · intro hu he hi
    simp [UserHandler.GetUser, NewUserHandler, hu, he, hi, respondWithError, StatusBadRequest]

/-- Instance of `getUser_dispatch` on the in-memory store holding `testuser`: a request
with username `TestUser`, an email and the malformed id `abc` makes the single store call
`GetUserByUsername("testuser")`, and a request with id `1` alone makes the single call
`GetUserByID(1)`. -/
theorem getUser_dispatch_witness :
    ((NewUserHandler (NewUserService (recordingRepo (MockUserRepository.asRepo 0 0)))).GetUser
        asciiLibs
        (⟨[("testuser", ⟨1, "testuser", "test@example.com", "$password123", 7, 8⟩)],
          [(1, ⟨1, "testuser", "test@example.com", "$password123", 7, 8⟩)], 1⟩, [])
        "GET" "TestUser" "nobody@example.com" "abc").2.2 =
      [.GetUserByUsername (strings.TrimSpace (strings.ToLower asciiLibs "TestUser"))] ∧
    ((NewUserHandler (NewUserService (recordingRepo (MockUserRepository.asRepo 0 0)))).GetUser
        asciiLibs
        (⟨[("testuser", ⟨1, "testuser", "test@example.com", "$password123", 7, 8⟩)],
          [(1, ⟨1, "testuser", "test@example.com", "$password123", 7, 8⟩)], 1⟩, [])
        "GET" "TestUser" "nobody@example.com" "abc").1 =
      { Code := 200, Body := .user ⟨1, "testuser", "test@example.com", 7, 8⟩ } ∧
    ((NewUserHandler (NewUserService (recordingRepo (MockUserRepository.asRepo 0 0)))).GetUser
        asciiLibs
        (⟨[("testuser", ⟨1, "testuser", "test@example.com", "$password123", 7, 8⟩)],
          [(1, ⟨1, "testuser", "test@example.com", "$password123", 7, 8⟩)], 1⟩, [])
        "GET" "" "" "1").2.2 = [.GetUserByID 1] :=
  ⟨((getUser_dispatch asciiLibs (MockUserRepository.asRepo 0 0)
      ⟨[("testuser", ⟨1, "testuser", "test@example.com", "$password123", 7, 8⟩)],
        [(1, ⟨1, "testuser", "test@example.com", "$password123", 7, 8⟩)], 1⟩
      "TestUser" "nobody@example.com" "abc").1 (by decide)).2,
    by rfl,
    ((getUser_dispatch asciiLibs (MockUserRepository.asRepo 0 0)
      ⟨[("testuser", ⟨1, "testuser", "test@example.com", "$password123", 7, 8⟩)],
        [(1, ⟨1, "testuser", "test@example.com", "$password123", 7, 8⟩)], 1⟩
      "" "" "1").2.2.1 rfl rfl 1 (by rfl) (by decide)).2⟩

/-- C12, counterexample. A GET request whose only parameter is the non-empty id `abc` is
answered 400 `Invalid user ID` and one whose only parameter is the id `0` is answered 400
`invalid user ID`; in both cases the store, which holds an account, has recorded no call:
no lookup was performed although the id is non-empty. -/
theorem getUser_id_without_lookup :
    (NewUserHandler (NewUserService (recordingRepo (MockUserRepository.asRepo 0 0)))).GetUser
        asciiLibs
        (⟨[("testuser", ⟨1, "testuser", "test@example.com", "$password123", 7, 8⟩)],
          [(1, ⟨1, "testuser", "test@example.com", "$password123", 7, 8⟩)], 1⟩, [])
        "GET" "" "" "abc" =
      ({ Code := 400, Body := .error "Invalid user ID" },
        (⟨[("testuser", ⟨1, "testuser", "test@example.com", "$password123", 7, 8⟩)],
          [(1, ⟨1, "testuser", "test@example.com", "$password123", 7, 8⟩)], 1⟩, [])) ∧
    (NewUserHandler (NewUserService (recordingRepo (MockUserRepository.asRepo 0 0)))).GetUser
        asciiLibs
        (⟨[("testuser", ⟨1, "testuser", "test@example.com", "$password123", 7, 8⟩)],
          [(1, ⟨1, "testuser", "test@example.com", "$password123", 7, 8⟩)], 1⟩, [])
        "GET" "" "" "0" =
      ({ Code := 400, Body := .error "invalid user ID" },
        (⟨[("testuser", ⟨1, "testuser", "test@example.com", "$password123", 7, 8⟩)],
          [(1, ⟨1, "testuser", "test@example.com", "$password123", 7, 8⟩)], 1⟩, [])) := by
  refine ⟨by rfl, by rfl⟩

theorem getUser_eq_of_storeLookup {σ : Type} (L : GoLibs) (s : UserService σ) (st : σ)
    (username email idStr : String) (r : Except GoError User × σ)
    (h : storeLookup L s.Repo st username email idStr = some r) :
    (NewUserHandler s).GetUser L st "GET" username email idStr = getUserRespond r := by
  unfold storeLookup at h
  by_cases hu : username ≠ ""
  · rw [if_pos hu] at h
    cases h
    simp [UserHandler.GetUser, NewUserHandler, hu, getByUsername_eq]
  rw [if_neg hu] at h
  by_cases he : email ≠ ""
  · rw [if_pos he] at h
    cases h
    simp only [ne_eq, not_not] at hu
    simp [UserHandler.GetUser, NewUserHandler, hu, he, getByEmail_eq]
  rw [if_neg he] at h
  simp only [ne_eq, not_not] at hu he
  cases hid : strconv.Atoi idStr with
  | error e =>
    rw [hid] at h
    cases h
  | ok id =>
    rw [hid] at h
    by_cases hpos : 0 < id
    · simp only [hpos, if_true] at h
      cases h
      have hne := atoi_ne_empty idStr id hid
      simp [UserHandler.GetUser, NewUserHandler, hu, he, hne, hid, getByID_eq _ _ _ hpos]
    · simp only [hpos, if_false] at h
      cases h

/-- C13. For every GET lookup request the status of `GetUser` is: 200 with the account
view when the store lookup the request leads to returns an account; 400 when no parameter
is supplied, and, the id being the parameter in use (no username, no email), when the id
is not a parseable integer or is zero or negative; 404 when the store lookup reports that
the account does not exist (a `RepositoryError`); 500 when the store lookup fails with
any other error (one that is not of the service's own error type). -/
theorem getUser_status {σ : Type} (L : GoLibs) (s : UserService σ) (st : σ)
    (username email idStr : String) :
    (∀ (user : User) (st1 : σ),
      storeLookup L s.Repo st username email idStr = some (.ok user, st1) →
      (NewUserHandler s).GetUser L st "GET" username email idStr =
        ({ Code := 200, Body := .user user.ToResponse }, st1)) ∧
    (username = "" → email = "" → idStr = "" →
      (NewUserHandler s).GetUser L st "GET" username email idStr =
        ({ Code := 400, Body := .error "Please provide username, email, or id parameter" },
          st)) ∧
    (username = "" → email = "" → idStr ≠ "" → ∀ e : GoError, strconv.Atoi idStr = .error e →
      (NewUserHandler s).GetUser L st "GET" username email idStr =
        ({ Code := 400, Body := .error "Invalid user ID" }, st)) ∧
    (username = "" → email = "" → ∀ id : Int, strconv.Atoi idStr = .ok id → id ≤ 0 →
      (NewUserHandler s).GetUser L st "GET" username email idStr =
        ({ Code := 400, Body := .error "invalid user ID" }, st)) ∧
    (∀ (message : String) (st1 : σ),
      storeLookup L s.Repo st username email idStr =
        some (.error (.RepositoryError message), st1) →
      (NewUserHandler s).GetUser L st "GET" username email idStr =
        ({ Code := 404, Body := .error "User not found" }, st1)) ∧
    (∀ (e : GoError) (st1 : σ),
      storeLookup L s.Repo st username email idStr = some (.error e, st1) →
      errorType e ≠ .RepositoryError → errorType e ≠ .ServiceError →
      (NewUserHandler s).GetUser L st "GET" username email idStr =
        ({ Code := 500, Body := .error "Failed to retrieve user" }, st1)) := by
  refine ⟨?_, ?_, ?_, ?_, ?_, ?_⟩
  · intro user st1 h
    rw [getUser_eq_of_storeLookup L s st username email idStr _ h]
    rfl
  · intro hu he hi
    simp [UserHandler.GetUser, NewUserHandler, hu, he, hi, respondWithError, StatusBadRequest]
  · intro hu he hne e herr
    simp [UserHandler.GetUser, NewUserHandler, hu, he, hne, herr, respondWithError,
      StatusBadRequest]
  · intro hu he id hid hneg
    have hne := atoi_ne_empty idStr id hid
    simp [UserHandler.GetUser, NewUserHandler, hu, he, hne, hid, getByID_nonpos _ _ _ hneg,
      getUserRespond, respondWithError, StatusBadRequest, GoError.Error]
  · intro message st1 h
    rw [getUser_eq_of_storeLookup L s st username email idStr _ h]
    rfl
  · intro e st1 h h1 h2
    rw [getUser_eq_of_storeLookup L s st username email idStr _ h]
    cases e with
    | RepositoryError m => exact absurd rfl h1
    | ServiceError m => exact absurd rfl h2
    | _ => rfl

/-- Instance of `getUser_status` on the in-memory store holding `testuser`: the lookups of
the test suite by username, by an unknown email, by the malformed id `invalid` and with
no parameter get 200, 404, 400 and 400; a store that is unavailable gets 500. -/
theorem getUser_status_witness :
    ((NewUserHandler (NewUserService (MockUserRepository.asRepo 0 0))).GetUser asciiLibs
        ⟨[("testuser", ⟨1, "testuser", "test@example.com", "$password123", 7, 8⟩)],
          [(1, ⟨1, "testuser", "test@example.com", "$password123", 7, 8⟩)], 1⟩
        "GET" "testuser" "" "").1 =
      { Code := 200, Body := .user ⟨1, "testuser", "test@example.com", 7, 8⟩ } ∧
    ((NewUserHandler (NewUserService (MockUserRepository.asRepo 0 0))).GetUser asciiLibs
        ⟨[("testuser", ⟨1, "testuser", "test@example.com", "$password123", 7, 8⟩)],
          [(1, ⟨1, "testuser", "test@example.com", "$password123", 7, 8⟩)], 1⟩
        "GET" "" "nonexistent@example.com" "").1 =
      { Code := 404, Body := .error "User not found" } ∧
    ((NewUserHandler (NewUserService (MockUserRepository.asRepo 0 0))).GetUser asciiLibs
        ⟨[("testuser", ⟨1, "testuser", "test@example.com", "$password123", 7, 8⟩)],
          [(1, ⟨1, "testuser", "test@example.com", "$password123", 7, 8⟩)], 1⟩
        "GET" "" "" "invalid").1 =
      { Code := 400, Body := .error "Invalid user ID" } ∧
    (NewUserHandler (NewUserService (MockUserRepository.asRepo 0 0))).GetUser asciiLibs
        ⟨[("testuser", ⟨1, "testuser", "test@example.com", "$password123", 7, 8⟩)],
          [(1, ⟨1, "testuser", "test@example.com", "$password123", 7, 8⟩)], 1⟩
        "GET" "" "" "" =
      ({ Code := 400, Body := .error "Please provide username, email, or id parameter" },
        ⟨[("testuser", ⟨1, "testuser", "test@example.com", "$password123", 7, 8⟩)],
          [(1, ⟨1, "testuser", "test@example.com", "$password123", 7, 8⟩)], 1⟩) ∧
    (NewUserHandler (NewUserService countingRepo)).GetUser asciiLibs 0 "GET" "" "" "1" =
      ({ Code := 500, Body := .error "Failed to retrieve user" }, 1) :=
  ⟨by rfl, by rfl, by rfl,
    (getUser_status asciiLibs (NewUserService (MockUserRepository.asRepo 0 0))
      ⟨[("testuser", ⟨1, "testuser", "test@example.com", "$password123", 7, 8⟩)],
        [(1, ⟨1, "testuser", "test@example.com", "$password123", 7, 8⟩)], 1⟩
      "" "" "").2.1 rfl rfl rfl,
    (getUser_status asciiLibs (NewUserService countingRepo) 0 "" "" "1").2.2.2.2.2
      (.errorString "store unavailable") 1 (by rfl) (by decide) (by decide)⟩

/-! ## The registration handler -/

/-- Every error of `Validate` is a `ValidationError`. -/
theorem validate_errorType (r : UserCreateRequest) (err : GoError)
    (h : r.Validate = some err) : ∃ message, err = .ValidationError message := by
  unfold UserCreateRequest.Validate NewValidationError at h
  split_ifs at h
  all_goals exact ⟨_, (Option.some.inj h).symm⟩

/-- The failures of `Register`, for every store: the validation error of the request; the
conflict error when the existence check answers that the account exists; and otherwise a
wrapped error (of the existence check, of the hashing or of the insert). -/
theorem register_failures {σ : Type} (L : GoLibs) (s : UserService σ) (st st1 : σ)
    (rand : Nat) (req : UserCreateRequest) (e : GoError)
    (h : s.Register L st rand req = (.error e, st1)) :
    req.Validate = some e ∨
    (req.Validate = none ∧
      (s.Repo.CheckUserExists st (strings.TrimSpace (strings.ToLower L req.Username))
        (strings.TrimSpace (strings.ToLower L req.Email))).1 = .ok true ∧
      e = .ServiceError "user with this username or email already exists") ∨
    (req.Validate = none ∧
      (s.Repo.CheckUserExists st (strings.TrimSpace (strings.ToLower L req.Username))
        (strings.TrimSpace (strings.ToLower L req.Email))).1 ≠ .ok true ∧
      ∃ msg inner, e = .wrapError msg inner) := by
  cases hval : req.Validate with
  | some err =>
    left
    simp only [UserService.Register, hval] at h
    cases h
    rfl
  | none =>
    right
    have hpw : req.Password ≠ "" := ((validate_eq_none_iff req).1 hval).2.2.1
    rcases hc : s.Repo.CheckUserExists st (strings.TrimSpace (strings.ToLower L req.Username))
        (strings.TrimSpace (strings.ToLower L req.Email)) with ⟨r, st0⟩
    rcases r with ce | b
    · right
      simp only [UserService.Register, hval, hc, fmt.Errorf] at h
      cases h
      exact ⟨rfl, by simp, _, _, rfl⟩
    · cases b with
      | true =>
        left
        simp only [UserService.Register, hval, hc, NewServiceError] at h
        cases h
        exact ⟨rfl, rfl, rfl⟩
      | false =>
        right
        refine ⟨rfl, by simp, ?_⟩
        cases hgen : L.GenerateFromPassword rand req.Password hashutil.DefaultCost with
        | error ge =>
          simp only [UserService.Register, hval, hc, hashutil.HashPassword, hpw, hgen,
            fmt.Errorf, if_false] at h
          cases h
          exact ⟨_, _, rfl⟩
        | ok hh =>
          rcases hcr : s.Repo.CreateUser st0
            { ID := 0, Username := strings.TrimSpace (strings.ToLower L req.Username),
              Email := strings.TrimSpace (strings.ToLower L req.Email), PasswordHash := hh,
              CreatedAt := 0, UpdatedAt := 0 } with ⟨oe, user1, st2⟩
          cases oe with
          | some ce =>
            simp only [UserService.Register, hval, hc, hashutil.HashPassword, hpw, hgen,
              fmt.Errorf, if_false, hcr] at h
            cases h
            exact ⟨_, _, rfl⟩
          | none =>
            simp only [UserService.Register, hval, hc, hashutil.HashPassword, hpw, hgen,
              if_false, hcr] at h
            cases h

/-- C14. For every POST register request with a decodable body, `RegisterUser` answers 201
with the account view when `Register` succeeds, 400 carrying the validation message
verbatim when the request fails `Validate`, 409 when `Register` reports the duplicate
username or email, and 500 with the fixed message `Failed to create user`, whatever the
text of the underlying error, for every other failure of `Register`. -/
theorem registerUser_status {σ : Type} (L : GoLibs) (s : UserService σ) (st : σ) (rand : Nat)
    (req : UserCreateRequest) :
    (∀ (user : User) (st1 : σ), s.Register L st rand req = (.ok user, st1) →
      (NewUserHandler s).RegisterUser L st rand "POST" (.ok req) =
        ({ Code := 201, Body := .user user.ToResponse }, st1)) ∧
    (∀ err : GoError, req.Validate = some err →
      s.Register L st rand req = (.error err, st) ∧
      (NewUserHandler s).RegisterUser L st rand "POST" (.ok req) =
        ({ Code := 400, Body := .error err.Error }, st)) ∧
    (∀ st1 : σ, s.Register L st rand req =
        (.error (.ServiceError "user with this username or email already exists"), st1) →
      (NewUserHandler s).RegisterUser L st rand "POST" (.ok req) =
        ({ Code := 409, Body := .error "user with this username or email already exists" },
          st1)) ∧
    (∀ (e : GoError) (st1 : σ), s.Register L st rand req = (.error e, st1) →
      req.Validate = none →
      e ≠ .ServiceError "user with this username or email already exists" →
      (NewUserHandler s).RegisterUser L st rand "POST" (.ok req) =
        ({ Code := 500, Body := .error "Failed to create user" }, st1)) := by
  refine ⟨?_, ?_, ?_, ?_⟩
  · intro user st1 h
    simp [UserHandler.RegisterUser, NewUserHandler, h, StatusCreated]
  · intro err hval
    obtain ⟨message, rfl⟩ := validate_errorType req err hval
    have h : s.Register L st rand req = (.error (.ValidationError message), st) := by
      simp [UserService.Register, hval]
    refine ⟨h, ?_⟩
    simp [UserHandler.RegisterUser, NewUserHandler, h, respondWithError, StatusBadRequest]
  · intro st1 h
    simp [UserHandler.RegisterUser, NewUserHandler, h, respondWithError, StatusConflict,
      GoError.Error]
  · intro e st1 h hval hne
    rcases register_failures L s st st1 rand req e h with h1 | ⟨_, _, h2⟩ | ⟨_, _, msg, inner, h3⟩
    · rw [hval] at h1
      cases h1
    · exact absurd h2 hne
    · subst h3
      simp [UserHandler.RegisterUser, NewUserHandler, h, respondWithError,
        StatusInternalServerError]

/-- Instance of `registerUser_status`: the five requests of the test suite against the
in-memory store, and a registration against a store that is unavailable. -/
theorem registerUser_status_witness :
    ((NewUserHandler (NewUserService (MockUserRepository.asRepo 7 8))).RegisterUser asciiLibs
        NewMockUserRepository 0 "POST"
        (.ok ⟨"testuser", "test@example.com", "password123"⟩)).1 =
      { Code := 201, Body := .user ⟨1, "testuser", "test@example.com", 7, 8⟩ } ∧
    (NewUserHandler (NewUserService (MockUserRepository.asRepo 7 8))).RegisterUser asciiLibs
        NewMockUserRepository 0 "POST" (.ok ⟨"testuser", "test@example.com", "123"⟩) =
      ({ Code := 400, Body := .error "password must be at least 6 characters" },
        NewMockUserRepository) ∧
    ((NewUserHandler (NewUserService (MockUserRepository.asRepo 7 8))).RegisterUser asciiLibs
        ⟨[("testuser", ⟨1, "testuser", "test@example.com", "$password123", 7, 8⟩)],
          [(1, ⟨1, "testuser", "test@example.com", "$password123", 7, 8⟩)], 1⟩
        0 "POST" (.ok ⟨"testuser", "different@example.com", "password123"⟩)).1 =
      { Code := 409, Body := .error "user with this username or email already exists" } ∧
    (NewUserHandler (NewUserService countingRepo)).RegisterUser asciiLibs 0 0 "POST"
        (.ok ⟨"testuser", "test@example.com", "password123"⟩) =
      ({ Code := 500, Body := .error "Failed to create user" }, 1) :=
  ⟨by rfl,
    by
      simpa [GoError.Error] using
        ((registerUser_status asciiLibs (NewUserService (MockUserRepository.asRepo 7 8))
          NewMockUserRepository 0 ⟨"testuser", "test@example.com", "123"⟩).2.1
          (.ValidationError "password must be at least 6 characters") (by rfl)).2,
    by rfl,
    (registerUser_status asciiLibs (NewUserService countingRepo) 0 0
      ⟨"testuser", "test@example.com", "password123"⟩).2.2.2
      (.wrapError "failed to check user existence: store unavailable"
        (.errorString "store unavailable")) 1 (by rfl) (by rfl) (by decide)⟩

/-! ## The outward view of an account -/

/-- C15. For every account, the view produced by `ToResponse` carries exactly the id, the
username, the email and the two timestamps, copied unchanged from the account, and it
does not depend on the password hash: replacing the hash leaves the view unchanged, and
two accounts that agree on the five fields have equal views. -/
theorem toResponse_hides_hash (u : User) :
    u.ToResponse = { ID := u.ID, Username := u.Username, Email := u.Email,
                     CreatedAt := u.CreatedAt, UpdatedAt := u.UpdatedAt } ∧
    (∀ hash : String, ({ u with PasswordHash := hash } : User).ToResponse = u.ToResponse) ∧
    (∀ v : User, v.ID = u.ID → v.Username = u.Username → v.Email = u.Email →
      v.CreatedAt = u.CreatedAt → v.UpdatedAt = u.UpdatedAt → v.ToResponse = u.ToResponse) := by
  refine ⟨rfl, fun _ => rfl, ?_⟩
  intro v h1 h2 h3 h4 h5
  simp [User.ToResponse, h1, h2, h3, h4, h5]

/-- Instance of `toResponse_hides_hash`: two accounts that differ only in the password
hash have the same view. -/
theorem toResponse_hides_hash_witness :
    (User.mk 1 "alice" "alice@x.com" "$secret1" 7 8).ToResponse =
      (User.mk 1 "alice" "alice@x.com" "$other12" 7 8).ToResponse :=
  (toResponse_hides_hash ⟨1, "alice", "alice@x.com", "$other12", 7, 8⟩).2.2
    ⟨1, "alice", "alice@x.com", "$secret1", 7, 8⟩ rfl rfl rfl rfl rfl

/-! ## Credentials -/

/-- What `ValidateCredentials` returns on non-empty input, for every store. -/
theorem validateCredentials_eq {σ : Type} (L : GoLibs) (s : UserService σ) (st : σ)
    (username password : String) (hu : username ≠ "") (hp : password ≠ "") :
    s.ValidateCredentials L st username password =
      match s.Repo.GetUserByUsername st (strings.TrimSpace (strings.ToLower L username)) with
      | (.ok user, st1) =>
        if hashutil.CheckPasswordHash L password user.PasswordHash = true then (.ok user, st1)
        else (.error (.ServiceError "invalid credentials"), st1)
      | (.error _, st1) => (.error (.ServiceError "invalid credentials"), st1) := by
  simp only [UserService.ValidateCredentials, hu, hp, or_self, if_false,
    getByUsername_eq L s st username hu, NewServiceError]
  rcases s.Repo.GetUserByUsername st (strings.TrimSpace (strings.ToLower L username))
    with ⟨r | user, st1⟩
  · rfl
  · by_cases hc : hashutil.CheckPasswordHash L password user.PasswordHash = true
    · simp [hc]
    · simp [hc]

/-- C16. For every non-empty username and non-empty password, `ValidateCredentials`
returns an account if and only if the store returns an account for the trimmed,
lower-cased username and `CheckPasswordHash` accepts the password against the stored hash
of that account; the account returned is then exactly the stored account, and in every
other case the result is the error `invalid credentials`. -/
theorem validateCredentials_iff {σ : Type} (L : GoLibs) (s : UserService σ) (st : σ)
    (username password : String) (hu : username ≠ "") (hp : password ≠ "") :
    (∀ user : User, (s.ValidateCredentials L st username password).1 = .ok user ↔
      ((s.Repo.GetUserByUsername st (strings.TrimSpace (strings.ToLower L username))).1
          = .ok user ∧
        hashutil.CheckPasswordHash L password user.PasswordHash = true)) ∧
    ((∀ user : User,
        ¬ ((s.Repo.GetUserByUsername st (strings.TrimSpace (strings.ToLower L username))).1
            = .ok user ∧
          hashutil.CheckPasswordHash L password user.PasswordHash = true)) →
      (s.ValidateCredentials L st username password).1 =
        .error (.ServiceError "invalid credentials")) := by
  rw [validateCredentials_eq L s st username password hu hp]
  rcases s.Repo.GetUserByUsername st (strings.TrimSpace (strings.ToLower L username))
    with ⟨r | stored, st1⟩
  · refine ⟨fun user => ?_, fun _ => rfl⟩
    simp
  · by_cases hc : hashutil.CheckPasswordHash L password stored.PasswordHash = true
    · refine ⟨fun user => ?_, fun hno => absurd ⟨rfl, hc⟩ (hno stored)⟩
      simp only [hc, if_true]
      constructor
      · intro h
        cases h
        exact ⟨rfl, hc⟩
      · rintro ⟨h, _⟩
        exact h
    · refine ⟨fun user => ?_, fun _ => by simp [hc]⟩
      simp only [hc, if_false]
      constructor
      · intro h
        cases h
      · rintro ⟨h, h2⟩
        cases h
        exact absurd h2 hc

/-- Instance of `validateCredentials_iff` on the in-memory store holding `testuser`: the
right password returns the stored account, a wrong password and an unknown username
return `invalid credentials`. -/
theorem validateCredentials_iff_witness :
    ((NewUserService (MockUserRepository.asRepo 0 0)).ValidateCredentials asciiLibs
        ⟨[("testuser", ⟨1, "testuser", "test@example.com", "$password123", 7, 8⟩)],
          [(1, ⟨1, "testuser", "test@example.com", "$password123", 7, 8⟩)], 1⟩
        "TestUser" "password123").1 =
      .ok ⟨1, "testuser", "test@example.com", "$password123", 7, 8⟩ ∧
    ((NewUserService (MockUserRepository.asRepo 0 0)).ValidateCredentials asciiLibs
        ⟨[("testuser", ⟨1, "testuser", "test@example.com", "$password123", 7, 8⟩)],
          [(1, ⟨1, "testuser", "test@example.com", "$password123", 7, 8⟩)], 1⟩
        "testuser" "wrongpassword").1 = .error (.ServiceError "invalid credentials") ∧
    ((NewUserService (MockUserRepository.asRepo 0 0)).ValidateCredentials asciiLibs
        ⟨[("testuser", ⟨1, "testuser", "test@example.com", "$password123", 7, 8⟩)],
          [(1, ⟨1, "testuser", "test@example.com", "$password123", 7, 8⟩)], 1⟩
        "nobody" "password123").1 = .error (.ServiceError "invalid credentials") :=
  ⟨((validateCredentials_iff asciiLibs (NewUserService (MockUserRepository.asRepo 0 0))
      ⟨[("testuser", ⟨1, "testuser", "test@example.com", "$password123", 7, 8⟩)],
        [(1, ⟨1, "testuser", "test@example.com", "$password123", 7, 8⟩)], 1⟩
      "TestUser" "password123" (by decide) (by decide)).1
      ⟨1, "testuser", "test@example.com", "$password123", 7, 8⟩).2 ⟨by rfl, by rfl⟩,
    by rfl, by rfl⟩

/-- C17. `ValidateCredentials` does not reveal whether a username exists: for non-empty
usernames and passwords, the error returned when the store has no account for the
username is identical, in type and in message (`invalid credentials`), to the error
returned when the account exists but the password does not verify. -/
theorem validateCredentials_uniform_error {σ : Type} (L : GoLibs) (s : UserService σ)
    (st st1 st2 : σ) (username1 username2 password1 password2 : String) (e : GoError)
    (stored : User)
    (hu1 : username1 ≠ "") (hp1 : password1 ≠ "") (hu2 : username2 ≠ "")
    (hp2 : password2 ≠ "")
    (hmissing : s.Repo.GetUserByUsername st
      (strings.TrimSpace (strings.ToLower L username1)) = (.error e, st1))
    (hfound : s.Repo.GetUserByUsername st
      (strings.TrimSpace (strings.ToLower L username2)) = (.ok stored, st2))
    (hwrong : hashutil.CheckPasswordHash L password2 stored.PasswordHash = false) :
    (s.ValidateCredentials L st username1 password1).1 =
      .error (.ServiceError "invalid credentials") ∧
    (s.ValidateCredentials L st username2 password2).1 =
      .error (.ServiceError "invalid credentials") ∧
    (s.ValidateCredentials L st username1 password1).1 =
      (s.ValidateCredentials L st username2 password2).1 := by
  have h1 : (s.ValidateCredentials L st username1 password1).1 =
      .error (.ServiceError "invalid credentials") := by
    rw [validateCredentials_eq L s st username1 password1 hu1 hp1, hmissing]
  have h2 : (s.ValidateCredentials L st username2 password2).1 =
      .error (.ServiceError "invalid credentials") := by
    rw [validateCredentials_eq L s st username2 password2 hu2 hp2, hfound]
    simp [hwrong]
  exact ⟨h1, h2, h1.trans h2.symm⟩

/-- Instance of `validateCredentials_uniform_error` on the in-memory store holding
`testuser`: the unknown username `nobody` and the known `testuser` with a wrong password
get the same error. -/
theorem validateCredentials_uniform_error_witness :
    ((NewUserService (MockUserRepository.asRepo 0 0)).ValidateCredentials asciiLibs
        ⟨[("testuser", ⟨1, "testuser", "test@example.com", "$password123", 7, 8⟩)],
          [(1, ⟨1, "testuser", "test@example.com", "$password123", 7, 8⟩)], 1⟩
        "nobody" "password123").1 =
    ((NewUserService (MockUserRepository.asRepo 0 0)).ValidateCredentials asciiLibs
        ⟨[("testuser", ⟨1, "testuser", "test@example.com", "$password123", 7, 8⟩)],
          [(1, ⟨1, "testuser", "test@example.com", "$password123", 7, 8⟩)], 1⟩
        "testuser" "wrongpassword").1 :=
  (validateCredentials_uniform_error asciiLibs (NewUserService (MockUserRepository.asRepo 0 0))
    ⟨[("testuser", ⟨1, "testuser", "test@example.com", "$password123", 7, 8⟩)],
      [(1, ⟨1, "testuser", "test@example.com", "$password123", 7, 8⟩)], 1⟩
    ⟨[("testuser", ⟨1, "testuser", "test@example.com", "$password123", 7, 8⟩)],
      [(1, ⟨1, "testuser", "test@example.com", "$password123", 7, 8⟩)], 1⟩
    ⟨[("testuser", ⟨1, "testuser", "test@example.com", "$password123", 7, 8⟩)],
      [(1, ⟨1, "testuser", "test@example.com", "$password123", 7, 8⟩)], 1⟩
    "nobody" "testuser" "password123" "wrongpassword" (.RepositoryError "user not found")
    ⟨1, "testuser", "test@example.com", "$password123", 7, 8⟩
    (by decide) (by decide) (by decide) (by decide) (by rfl) (by rfl) (by rfl)).2.2

/-! ## Error kinds -/

/-- C18 (as amended). By type alone the errors fall into three kinds, not four. The error
`Register` returns on a duplicate, the error `ValidateCredentials` returns on bad
credentials and the error the lookups and `ValidateCredentials` return on invalid input
are all of the one type `ServiceError` and differ only in their message text. The
not-found error of the in-memory store is of a second type, `RepositoryError`, and the
error `Register` returns for a request that fails `Validate` of a third,
`ValidationError`. -/
theorem error_types {σ : Type} (L : GoLibs) (s : UserService σ) (st : σ) :
    (∀ (rand : Nat) (req : UserCreateRequest) (st1 : σ), req.Validate = none →
      s.Repo.CheckUserExists st (strings.TrimSpace (strings.ToLower L req.Username))
        (strings.TrimSpace (strings.ToLower L req.Email)) = (.ok true, st1) →
      (s.Register L st rand req).1 =
        .error (.ServiceError "user with this username or email already exists")) ∧
    (∀ (username password : String) (e : GoError) (st1 : σ), username ≠ "" → password ≠ "" →
      s.Repo.GetUserByUsername st (strings.TrimSpace (strings.ToLower L username))
        = (.error e, st1) →
      (s.ValidateCredentials L st username password).1 =
        .error (.ServiceError "invalid credentials")) ∧
    (∀ id : Int, id ≤ 0 → (s.GetByID st id).1 = .error (.ServiceError "invalid user ID")) ∧
    (s.GetByUsername L st "").1 = .error (.ServiceError "username is required") ∧
    (s.GetByEmail L st "").1 = .error (.ServiceError "email is required") ∧
    (∀ username password : String, username = "" ∨ password = "" →
      (s.ValidateCredentials L st username password).1 =
        .error (.ServiceError "username and password are required")) ∧
    (∀ message message2 : String,
      errorType (.ServiceError message) = errorType (.ServiceError message2)) ∧
    (∀ (m : MockUserRepository) (username : String), GoMap.lookup m.users username = none →
      (m.GetUserByUsername username).1 = .error (.RepositoryError "user not found")) ∧
    (∀ (m : MockUserRepository) (id : Int), GoMap.lookup m.usersByID id = none →
      (m.GetUserByID id).1 = .error (.RepositoryError "user not found")) ∧
    (∀ (m : MockUserRepository) (email : String),
      m.users.find? (fun p => decide (p.2.Email = email)) = none →
      (m.GetUserByEmail email).1 = .error (.RepositoryError "user not found")) ∧
    (∀ (rand : Nat) (req : UserCreateRequest) (err : GoError), req.Validate = some err →
      (s.Register L st rand req).1 = .error err ∧ errorType err = .ValidationError) ∧
    (∀ message message2 message3 : String,
      errorType (.ServiceError message) ≠ errorType (.RepositoryError message2) ∧
      errorType (.ServiceError message) ≠ errorType (.ValidationError message3) ∧
      errorType (.RepositoryError message2) ≠ errorType (.ValidationError message3)) := by
  refine ⟨?_, ?_, ?_, ?_, ?_, ?_, ?_, ?_, ?_, ?_, ?_, ?_⟩
  · intro rand req st1 hval hc
    simp [UserService.Register, hval, hc, NewServiceError]
  · intro username password e st1 hu hp hmiss
    rw [validateCredentials_eq L s st username password hu hp, hmiss]
  · intro id hid
    rw [getByID_nonpos s st id hid]
  · simp [UserService.GetByUsername, NewServiceError]
  · simp [UserService.GetByEmail, NewServiceError]
  · intro username password h
    simp [UserService.ValidateCredentials, h, NewServiceError]
  · intro _ _
    rfl
  · intro m username h
    simp [MockUserRepository.GetUserByUsername, h]
  · intro m id h
    simp [MockUserRepository.GetUserByID, h]
  · intro m email h
    simp only [MockUserRepository.GetUserByEmail, h]
  · intro rand req err hval
    obtain ⟨message, rfl⟩ := validate_errorType req err hval
    exact ⟨by simp [UserService.Register, hval], rfl⟩
  · intro _ _ _
    simp [errorType]

/-- Instance of `error_types` on the in-memory store holding `testuser`: the errors of a
duplicate registration, of a wrong password and of the id 0 are `ServiceError`s, the
lookup of the unknown id 2 is a `RepositoryError`. -/
theorem error_types_witness :
    ((NewUserService (MockUserRepository.asRepo 0 0)).Register asciiLibs
        ⟨[("testuser", ⟨1, "testuser", "test@example.com", "$password123", 7, 8⟩)],
          [(1, ⟨1, "testuser", "test@example.com", "$password123", 7, 8⟩)], 1⟩
        0 ⟨"testuser", "different@example.com", "password123"⟩).1 =
      .error (.ServiceError "user with this username or email already exists") ∧
    ((NewUserService (MockUserRepository.asRepo 0 0)).ValidateCredentials asciiLibs
        ⟨[("testuser", ⟨1, "testuser", "test@example.com", "$password123", 7, 8⟩)],
          [(1, ⟨1, "testuser", "test@example.com", "$password123", 7, 8⟩)], 1⟩
        "nobody" "password123").1 = .error (.ServiceError "invalid credentials") ∧
    ((NewUserService (MockUserRepository.asRepo 0 0)).GetByID
        ⟨[("testuser", ⟨1, "testuser", "test@example.com", "$password123", 7, 8⟩)],
          [(1, ⟨1, "testuser", "test@example.com", "$password123", 7, 8⟩)], 1⟩
        0).1 = .error (.ServiceError "invalid user ID") ∧
    (MockUserRepository.GetUserByID
        ⟨[("testuser", ⟨1, "testuser", "test@example.com", "$password123", 7, 8⟩)],
          [(1, ⟨1, "testuser", "test@example.com", "$password123", 7, 8⟩)], 1⟩
        2).1 = .error (.RepositoryError "user not found") :=
  ⟨(error_types asciiLibs (NewUserService (MockUserRepository.asRepo 0 0))
      ⟨[("testuser", ⟨1, "testuser", "test@example.com", "$password123", 7, 8⟩)],
        [(1, ⟨1, "testuser", "test@example.com", "$password123", 7, 8⟩)], 1⟩).1 0
      ⟨"testuser", "different@example.com", "password123"⟩
      ⟨[("testuser", ⟨1, "testuser", "test@example.com", "$password123", 7, 8⟩)],
        [(1, ⟨1, "testuser", "test@example.com", "$password123", 7, 8⟩)], 1⟩
      (by rfl) (by rfl),
    by rfl, by rfl, by rfl⟩

/-- C18, counterexample. On the in-memory store holding `testuser`, the error `Register`
returns on a duplicate, the error `ValidateCredentials` returns on a wrong password, and
the error `GetByID` returns for the id 0 all have the same dynamic type: only their
message text tells them apart. -/
theorem error_types_coincide :
    ((NewUserService (MockUserRepository.asRepo 0 0)).Register asciiLibs
        ⟨[("testuser", ⟨1, "testuser", "test@example.com", "$password123", 7, 8⟩)],
          [(1, ⟨1, "testuser", "test@example.com", "$password123", 7, 8⟩)], 1⟩
        0 ⟨"testuser", "different@example.com", "password123"⟩).1 =
      .error (.ServiceError "user with this username or email already exists") ∧
    ((NewUserService (MockUserRepository.asRepo 0 0)).ValidateCredentials asciiLibs
        ⟨[("testuser", ⟨1, "testuser", "test@example.com", "$password123", 7, 8⟩)],
          [(1, ⟨1, "testuser", "test@example.com", "$password123", 7, 8⟩)], 1⟩
        "testuser" "wrongpassword").1 = .error (.ServiceError "invalid credentials") ∧
    ((NewUserService (MockUserRepository.asRepo 0 0)).GetByID
        ⟨[("testuser", ⟨1, "testuser", "test@example.com", "$password123", 7, 8⟩)],
          [(1, ⟨1, "testuser", "test@example.com", "$password123", 7, 8⟩)], 1⟩
        0).1 = .error (.ServiceError "invalid user ID") ∧
    errorType (.ServiceError "user with this username or email already exists") =
      errorType (.ServiceError "invalid credentials") ∧
    errorType (.ServiceError "invalid credentials") =
      errorType (.ServiceError "invalid user ID") := by
  refine ⟨by rfl, by rfl, by rfl, by rfl, by rfl⟩

/-! ## Failures of the store -/

/-- C19 (as amended). When a store call fails with an infrastructure error `e`, `Register`
returns an infrastructure error (`e` wrapped, for the existence check as for the insert)
and `GetByID`, `GetByUsername` and `GetByEmail` return `e` itself, never a validation,
conflict, not-found or invalid-credentials error. `ValidateCredentials` returns the
`invalid credentials` error for every failure of its username lookup, this one
included. -/
theorem store_failure_outcomes {σ : Type} (L : GoLibs) (s : UserService σ) (st st1 : σ)
    (e : GoError) (he : isInfrastructure e = true) :
    (∀ (rand : Nat) (req : UserCreateRequest), req.Validate = none →
      s.Repo.CheckUserExists st (strings.TrimSpace (strings.ToLower L req.Username))
        (strings.TrimSpace (strings.ToLower L req.Email)) = (.error e, st1) →
      s.Register L st rand req =
        (.error (.wrapError ("failed to check user existence: " ++ e.Error) e), st1) ∧
      isInfrastructure (.wrapError ("failed to check user existence: " ++ e.Error) e) = true) ∧
    (∀ (rand : Nat) (req : UserCreateRequest) (st0 : σ) (h : String) (user1 : User),
      req.Validate = none →
      s.Repo.CheckUserExists st (strings.TrimSpace (strings.ToLower L req.Username))
        (strings.TrimSpace (strings.ToLower L req.Email)) = (.ok false, st0) →
      L.GenerateFromPassword rand req.Password hashutil.DefaultCost = .ok h →
      s.Repo.CreateUser st0
        { ID := 0, Username := strings.TrimSpace (strings.ToLower L req.Username),
          Email := strings.TrimSpace (strings.ToLower L req.Email), PasswordHash := h,
          CreatedAt := 0, UpdatedAt := 0 } = (some e, user1, st1) →
      s.Register L st rand req =
        (.error (.wrapError ("failed to create user: " ++ e.Error) e), st1) ∧
      isInfrastructure (.wrapError ("failed to create user: " ++ e.Error) e) = true) ∧
    (∀ id : Int, 0 < id → s.Repo.GetUserByID st id = (.error e, st1) →
      s.GetByID st id = (.error e, st1) ∧ isInfrastructure e = true) ∧
    (∀ username : String, username ≠ "" →
      s.Repo.GetUserByUsername st (strings.TrimSpace (strings.ToLower L username))
        = (.error e, st1) →
      s.GetByUsername L st username = (.error e, st1) ∧ isInfrastructure e = true) ∧
    (∀ email : String, email ≠ "" →
      s.Repo.GetUserByEmail st (strings.TrimSpace (strings.ToLower L email))
        = (.error e, st1) →
      s.GetByEmail L st email = (.error e, st1) ∧ isInfrastructure e = true) ∧
    (∀ username password : String, username ≠ "" → password ≠ "" →
      s.Repo.GetUserByUsername st (strings.TrimSpace (strings.ToLower L username))
        = (.error e, st1) →
      s.ValidateCredentials L st username password =
        (.error (.ServiceError "invalid credentials"), st1) ∧
      isInfrastructure (.ServiceError "invalid credentials") = false) := by
  refine ⟨?_, ?_, ?_, ?_, ?_, ?_⟩
  · intro rand req hval hc
    exact ⟨by simp [UserService.Register, hval, hc, fmt.Errorf], rfl⟩
  · intro rand req st0 h user1 hval hc hgen hcr
    have hpw : req.Password ≠ "" := ((validate_eq_none_iff req).1 hval).2.2.1
    exact ⟨by simp [UserService.Register, hval, hc, hashutil.HashPassword, hpw, hgen, hcr,
      fmt.Errorf], rfl⟩
  · intro id hid h
    exact ⟨by rw [getByID_eq s st id hid, h], he⟩
  · intro username hu h
    exact ⟨by rw [getByUsername_eq L s st username hu, h], he⟩
  · intro email hm h
    exact ⟨by rw [getByEmail_eq L s st email hm, h], he⟩
  · intro username password hu hp h
    refine ⟨?_, rfl⟩
    rw [validateCredentials_eq L s st username password hu hp, h]

/-- Instance of `store_failure_outcomes` on a store that is unavailable: `Register`
returns the wrapped failure, `GetByID` the failure itself, and `ValidateCredentials` the
`invalid credentials` error. -/
theorem store_failure_outcomes_witness :
    (NewUserService countingRepo).Register asciiLibs 0 0
        ⟨"testuser", "test@example.com", "password123"⟩ =
      (.error (.wrapError ("failed to check user existence: " ++
          (GoError.errorString "store unavailable").Error)
          (.errorString "store unavailable")), 1) ∧
    (NewUserService countingRepo).GetByID 0 1 = (.error (.errorString "store unavailable"), 1) ∧
    (NewUserService countingRepo).ValidateCredentials asciiLibs 0 "testuser" "password123" =
      (.error (.ServiceError "invalid credentials"), 1) :=
  ⟨((store_failure_outcomes asciiLibs (NewUserService countingRepo) 0 1
      (.errorString "store unavailable") (by rfl)).1 0
      ⟨"testuser", "test@example.com", "password123"⟩ (by rfl) (by rfl)).1,
    ((store_failure_outcomes asciiLibs (NewUserService countingRepo) 0 1
      (.errorString "store unavailable") (by rfl)).2.2.1 1 (by decide) (by rfl)).1,
    ((store_failure_outcomes asciiLibs (NewUserService countingRepo) 0 1
      (.errorString "store unavailable") (by rfl)).2.2.2.2.2 "testuser" "password123"
      (by decide) (by decide) (by rfl)).1⟩

/-- C19, counterexample. Against a store that is unavailable, whose username lookup fails
with an error that is not its not-found error, `ValidateCredentials` returns the
`invalid credentials` error, which is not an infrastructure error; the store was
called once. -/
theorem validateCredentials_masks_store_failure :
    (countingRepo.GetUserByUsername 0
        (strings.TrimSpace (strings.ToLower asciiLibs "testuser"))).1 =
      .error (.errorString "store unavailable") ∧
    isInfrastructure (.errorString "store unavailable") = true ∧
    errorType (.errorString "store unavailable") ≠ errorType (.RepositoryError "user not found") ∧
    (NewUserService countingRepo).ValidateCredentials asciiLibs 0 "testuser" "password123" =
      (.error (.ServiceError "invalid credentials"), 1) ∧
    isInfrastructure (.ServiceError "invalid credentials") = false := by
  refine ⟨by rfl, by rfl, by decide, by rfl, by rfl⟩

/-! ## The credential hasher on empty input -/

/-- C20. `HashPassword` fails on the empty password, returning the empty string with the
error `password cannot be empty`, and `CheckPasswordHash`, which returns a boolean and no
error, returns false whenever the password is empty or the hash is empty, whatever the
other argument. -/
theorem hasher_empty_input (L : GoLibs) :
    (∀ rand : Nat,
      hashutil.HashPassword L rand "" = ("", some (.HashError "password cannot be empty"))) ∧
    (∀ hash : String, hashutil.CheckPasswordHash L "" hash = false) ∧
    (∀ password : String, hashutil.CheckPasswordHash L password "" = false) := by
  refine ⟨fun _ => rfl, fun _ => rfl, fun password => ?_⟩
  simp [hashutil.CheckPasswordHash]

/-- Instance of `hasher_empty_input` for the stand-in libraries, whose comparison would
accept the empty password against any hash. -/
theorem hasher_empty_input_witness :
    hashutil.HashPassword asciiLibs 0 "" = ("", some (.HashError "password cannot be empty")) ∧
    hashutil.CheckPasswordHash asciiLibs "" "$password123" = false ∧
    hashutil.CheckPasswordHash asciiLibs "password123" "" = false ∧
    asciiLibs.CompareHashAndPassword "$password123" "" = none :=
  ⟨(hasher_empty_input asciiLibs).1 0, (hasher_empty_input asciiLibs).2.1 "$password123",
    (hasher_empty_input asciiLibs).2.2 "password123", by rfl⟩

/-! ## Normalization -/

theorem char_toNat_ofNat (n : Nat) (h : n < 0xd800) : (Char.ofNat n).toNat = n := by
  have hv : n.isValidChar := Or.inl h
  simp only [Char.ofNat, hv, dite_true, Char.toNat, Char.ofNatAux]
  rfl

/-- Lower-casing an ASCII rune gives an ASCII rune that is not a capital. -/
theorem toLower_ascii (L : GoLibs) (r : Char) (h : r.toNat ≤ 0x7F) :
    (unicode.ToLower L r).toNat ≤ 0x7F ∧
      ¬ ('A'.toNat ≤ (unicode.ToLower L r).toNat ∧ (unicode.ToLower L r).toNat ≤ 'Z'.toNat) := by
  unfold unicode.ToLower
  rw [if_pos h]
  have hA : 'A'.toNat = 65 := by decide
  have hZ : 'Z'.toNat = 90 := by decide
  have ha : 'a'.toNat = 97 := by decide
  by_cases hu : 'A'.toNat ≤ r.toNat ∧ r.toNat ≤ 'Z'.toNat
  · rw [if_pos hu]
    rw [hA, hZ] at hu
    rw [char_toNat_ofNat _ (by rw [ha, hA]; omega), ha, hA, hZ]
    omega
  · rw [if_neg hu]
    exact ⟨h, hu⟩

theorem toLower_of_not_capital (L : GoLibs) (x : Char) (h1 : x.toNat ≤ 0x7F)
    (h2 : ¬ ('A'.toNat ≤ x.toNat ∧ x.toNat ≤ 'Z'.toNat)) : unicode.ToLower L x = x := by
  unfold unicode.ToLower
  rw [if_pos h1, if_neg h2]

/-- Lower-casing twice is lower-casing once, for ASCII runes and, with case tables whose
lower case is stable, for all runes. -/
theorem toLower_toLower (L : GoLibs) (r : Char)
    (h : r.toNat ≤ 0x7F ∨ LowerCaseStable L) :
    unicode.ToLower L (unicode.ToLower L r) = unicode.ToLower L r := by
  by_cases ha : r.toNat ≤ 0x7F
  · obtain ⟨h1, h2⟩ := toLower_ascii L r ha
    exact toLower_of_not_capital L _ h1 h2
  · rcases h with h | h
    · exact absurd h ha
    · have hr : unicode.ToLower L r = L.toLowerCase r := by
        unfold unicode.ToLower
        rw [if_neg ha]
      rw [hr]
      exact h r (by omega)

/-- Trimming white space twice is trimming once. -/
theorem trim_trim (p : Char → Bool) (l : List Char) :
    ((((l.dropWhile p).rdropWhile p).dropWhile p).rdropWhile p) =
      (l.dropWhile p).rdropWhile p := by
  have hd : ((l.dropWhile p).rdropWhile p).dropWhile p = (l.dropWhile p).rdropWhile p := by
    rw [List.dropWhile_eq_self_iff]
    intro hl
    obtain ⟨t, ht⟩ := List.rdropWhile_prefix p (l.dropWhile p)
    have hpos : 0 < (l.dropWhile p).length := by
      rw [← ht, List.length_append]
      omega
    have hnot := List.dropWhile_get_zero_not p l hpos
    have heq : ((l.dropWhile p).rdropWhile p).get ⟨0, hl⟩ = (l.dropWhile p).get ⟨0, hpos⟩ := by
      have := List.IsPrefix.getElem ⟨t, ht⟩ hl
      simpa using this
    rw [heq]
    exact hnot
  rw [hd, List.rdropWhile_idempotent]

/-- The normalization of a string whose runes lower-casing leaves stable is a fixed point
of the normalization. -/
theorem normalize_normalize (L : GoLibs) (s : String)
    (h : ∀ c ∈ s.data, c.toNat ≤ 0x7F ∨ LowerCaseStable L) :
    strings.TrimSpace (strings.ToLower L (strings.TrimSpace (strings.ToLower L s))) =
      strings.TrimSpace (strings.ToLower L s) := by
  have hfix : ∀ d ∈ ((s.data.map (unicode.ToLower L)).dropWhile unicode.IsSpace).rdropWhile
      unicode.IsSpace, unicode.ToLower L d = d := by
    intro d hd
    have h1 : d ∈ (s.data.map (unicode.ToLower L)).dropWhile unicode.IsSpace :=
      (List.rdropWhile_prefix unicode.IsSpace _).subset hd
    have h2 : d ∈ s.data.map (unicode.ToLower L) :=
      (List.dropWhile_sublist unicode.IsSpace).subset h1
    obtain ⟨c, hc, rfl⟩ := List.mem_map.1 h2
    exact toLower_toLower L c (h c hc)
  have hmap : (((s.data.map (unicode.ToLower L)).dropWhile unicode.IsSpace).rdropWhile
      unicode.IsSpace).map (unicode.ToLower L) =
      ((s.data.map (unicode.ToLower L)).dropWhile unicode.IsSpace).rdropWhile
        unicode.IsSpace := by
    conv_rhs => rw [← List.map_id (((s.data.map (unicode.ToLower L)).dropWhile
      unicode.IsSpace).rdropWhile unicode.IsSpace)]
    exact List.map_congr_left hfix
  simp only [strings.TrimSpace, strings.ToLower, hmap, trim_trim]

/-! ## The round trip of the hasher -/

/-- C22. The normalization the service applies to usernames and emails (lower-case, then
trim surrounding white space) is idempotent: normalizing the normalized `key` gives the
normalized `key` again, for every string when the lower case that the Unicode case tables
give a rune above ASCII is itself in lower case, and for every string of ASCII characters
whatever the tables. A non-empty key that was stored normalized is therefore looked up
under itself by `GetByUsername` and `GetByEmail`. -/
theorem normalization_idempotent {σ : Type} (L : GoLibs) (s : UserService σ) (st : σ) :
    (LowerCaseStable L → ∀ key : String,
      strings.TrimSpace (strings.ToLower L (strings.TrimSpace (strings.ToLower L key))) =
        strings.TrimSpace (strings.ToLower L key)) ∧
    (∀ key : String, (∀ c ∈ key.data, c.toNat ≤ 0x7F) →
      strings.TrimSpace (strings.ToLower L (strings.TrimSpace (strings.ToLower L key))) =
        strings.TrimSpace (strings.ToLower L key)) ∧
    (∀ key : String, (LowerCaseStable L ∨ ∀ c ∈ key.data, c.toNat ≤ 0x7F) →
      strings.TrimSpace (strings.ToLower L key) ≠ "" →
      s.GetByUsername L st (strings.TrimSpace (strings.ToLower L key)) =
          s.Repo.GetUserByUsername st (strings.TrimSpace (strings.ToLower L key)) ∧
        s.GetByEmail L st (strings.TrimSpace (strings.ToLower L key)) =
          s.Repo.GetUserByEmail st (strings.TrimSpace (strings.ToLower L key))) := by
  refine ⟨?_, ?_, ?_⟩
  · intro hs key
    exact normalize_normalize L key (fun _ _ => Or.inr hs)
  · intro key hascii
    exact normalize_normalize L key (fun c hc => Or.inl (hascii c hc))
  · intro key h hne
    have hidem : strings.TrimSpace (strings.ToLower L
        (strings.TrimSpace (strings.ToLower L key))) =
        strings.TrimSpace (strings.ToLower L key) := by
      rcases h with hs | hascii
      · exact normalize_normalize L key (fun _ _ => Or.inr hs)
      · exact normalize_normalize L key (fun c hc => Or.inl (hascii c hc))
    constructor
    · rw [getByUsername_eq L s st _ hne, hidem]
    · rw [getByEmail_eq L s st _ hne, hidem]

/-- The stand-in case tables, which change nothing above ASCII, are stable. -/
theorem lowerCaseStable_asciiLibs : LowerCaseStable asciiLibs := by
  intro r hr
  have hn : ¬ r.toNat ≤ 0x7F := by omega
  show unicode.ToLower asciiLibs r = r
  unfold unicode.ToLower
  rw [if_neg hn]
  rfl

/-- Instance of `normalization_idempotent`: normalizing `"  TestUser "` gives `testuser`,
and normalizing that again gives `testuser`. -/
theorem normalization_idempotent_witness :
    strings.TrimSpace (strings.ToLower asciiLibs "  TestUser ") = "testuser" ∧
    strings.TrimSpace (strings.ToLower asciiLibs
        (strings.TrimSpace (strings.ToLower asciiLibs "  TestUser "))) =
      strings.TrimSpace (strings.ToLower asciiLibs "  TestUser ") :=
  ⟨by rfl,
    (normalization_idempotent asciiLibs (NewUserService countingRepo) 0).1
      lowerCaseStable_asciiLibs "  TestUser "⟩

/-- C23, failing input. `GetByUsername` and `GetByEmail` with the key `" "` (one space)
do not fail with a validation error: the key is not the empty string, it is normalized to
the empty string, and the store is queried with the empty string, as the record of the
calls made to the store shows. -/
theorem lookup_queries_empty_key (L : GoLibs) :
    (NewUserService (recordingRepo (MockUserRepository.asRepo 0 0))).GetByUsername L
        (NewMockUserRepository, []) " " =
      (.error (.RepositoryError "user not found"),
        (NewMockUserRepository, [.GetUserByUsername ""])) ∧
    (NewUserService (recordingRepo (MockUserRepository.asRepo 0 0))).GetByEmail L
        (NewMockUserRepository, []) " " =
      (.error (.RepositoryError "user not found"),
        (NewMockUserRepository, [.GetUserByEmail ""])) := by
  refine ⟨by rfl, by rfl⟩
